import Mathlib

/-!
# libmsstyle: StyleProperty

A shallow embedding of `src/libmsstyle/StyleProperty.cpp` (header validation,
size computation, value formatting, equality, mutators, initializer) together
with the properties proved about it.

Conventions of the embedding

* C++ `int` / `int32_t` values are Lean `Int`; a conversion to the 32 bit
  `int` a function returns is written `toInt32` (reduction modulo 2^32).
* The enumeration `IDENTIFIER` is declared in `VisualStyleDefinitions.h`,
  which is not among the sources. Its enumerators are therefore a parameter
  (`ids : IDENTIFIER`) of every function that mentions one, and what a
  theorem needs to know about them is an explicit hypothesis.
* The class layout is declared in `StyleProperty.h`, also not among the
  sources. The model holds exactly the members and fields that
  `StyleProperty.cpp` names. The members of the payload union are kept as
  separate fields; no theorem relies on two members overlapping or not.
* `lookup::GetEnumAsString`, `lookup::FindFontName` and `WideToUTF8` are
  external; they are fields of the parameter `lk : Lookup`.
* `GetValueAsString` is the text the formatter is asked for;
  `GetValueAsString_buffered` adds `char textbuffer[64]` and is `none` where
  `sprintf` overruns it. The two agree whenever the text fits
  (`GetValueAsString_buffered_spec`).
-/

namespace libmsstyle

/-! ## Data model -/

/-- Enumerators of `IDENTIFIER` that `StyleProperty.cpp` refers to, as the
integers they convert to. -/
structure IDENTIFIER where
  DIBDATA : Int
  GLYPHDIBDATA : Int
  ENUM : Int
  STRING : Int
  INT : Int
  BOOL : Int
  COLOR : Int
  MARGINS : Int
  FILENAME : Int
  SIZE : Int
  POSITION : Int
  RECT : Int
  FONT : Int
  INTLIST : Int
  HBITMAP : Int
  DISKSTREAM : Int
  STREAM : Int
  BITMAPREF : Int
  FLOAT : Int
  UNKNOWN_241 : Int
  COLORSCHEMES : Int

/-- One concrete enumeration: the property and type identifiers of the Windows
theme headers (`TMT_ENUM = 200` ... `TMT_FLOAT = 216`, `TMT_COLORSCHEMES = 401`),
which `IDENTIFIER` mirrors. It is used only to evaluate the functions at
concrete inputs; the general theorems quantify over every enumeration. -/
def IDENTIFIER.tmt : IDENTIFIER where
  DIBDATA := 2
  GLYPHDIBDATA := 8
  ENUM := 200
  STRING := 201
  INT := 202
  BOOL := 203
  COLOR := 204
  MARGINS := 205
  FILENAME := 206
  SIZE := 207
  POSITION := 208
  RECT := 209
  FONT := 210
  INTLIST := 211
  HBITMAP := 212
  DISKSTREAM := 213
  STREAM := 214
  BITMAPREF := 215
  FLOAT := 216
  UNKNOWN_241 := 241
  COLORSCHEMES := 401

/-- The four whitelisted type identifiers lie in the range of the first check
of `IsPropertyValid`, `[ENUM, COLORSCHEMES)`. -/
def IDENTIFIER.WhitelistInRange (ids : IDENTIFIER) : Prop :=
  (ids.ENUM ≤ ids.COLOR ∧ ids.COLOR < ids.COLORSCHEMES) ∧
  (ids.ENUM ≤ ids.FONT ∧ ids.FONT < ids.COLORSCHEMES) ∧
  (ids.ENUM ≤ ids.DISKSTREAM ∧ ids.DISKSTREAM < ids.COLORSCHEMES) ∧
  (ids.ENUM ≤ ids.STREAM ∧ ids.STREAM < ids.COLORSCHEMES)

instance (ids : IDENTIFIER) : Decidable ids.WhitelistInRange := by
  unfold IDENTIFIER.WhitelistInRange
  infer_instance

/-- The four header integers, in stream order. -/
structure PropertyHeader where
  nameID : Int
  typeID : Int
  partID : Int
  stateID : Int

/-- Member `enumtype` of the payload union. -/
structure EnumType where
  sizeInBytes : Int
  enumvalue : Int

/-- Member `inttype` of the payload union. -/
structure IntType where
  sizeInBytes : Int
  value : Int

/-- Member `booltype` of the payload union. -/
structure BoolType where
  sizeInBytes : Int
  boolvalue : Int

/-- Member `colortype` of the payload union. -/
structure ColorType where
  sizeInBytes : Int
  r : Int
  g : Int
  b : Int

/-- Member `margintype` of the payload union. -/
structure MarginType where
  sizeInBytes : Int
  left : Int
  top : Int
  right : Int
  bottom : Int

/-- Member `imagetype` of the payload union. -/
structure ImageType where
  sizeInBytes : Int
  imageID : Int

/-- Member `sizetype` of the payload union. -/
structure SizeType where
  size : Int

/-- Member `positiontype` of the payload union. -/
structure PositionType where
  sizeInBytes : Int
  x : Int
  y : Int

/-- Member `recttype` of the payload union. -/
structure RectType where
  sizeInBytes : Int
  left : Int
  top : Int
  right : Int
  bottom : Int

/-- Member `fonttype` of the payload union. -/
structure FontType where
  sizeInBytes : Int
  fontID : Int

/-- Member `intlist` of the payload union. `firstInt i` is the integer read
by `*(&data.intlist.firstInt + i)`: entry `i` of the inline sequence. -/
structure IntList where
  numInts : Int
  firstInt : Nat → Int

/-- Member `texttype` of the payload union. -/
structure TextType where
  sizeInBytes : Int

/-- The payload union `data`, one field per member. -/
structure PropertyData where
  enumtype : EnumType
  inttype : IntType
  booltype : BoolType
  colortype : ColorType
  margintype : MarginType
  imagetype : ImageType
  sizetype : SizeType
  positiontype : PositionType
  recttype : RectType
  fonttype : FontType
  intlist : IntList
  texttype : TextType

/-- A property: header, payload, the number of bytes found after the header,
and the wide text of a string property (a sequence of code units). -/
structure StyleProperty where
  header : PropertyHeader
  data : PropertyData
  bytesAfterHeader : Int
  text : List Nat

/-- External collaborators of the formatter. -/
structure Lookup where
  GetEnumAsString : Int → Int → Option String
  FindFontName : Int → String
  WideToUTF8 : List Nat → String

/-! ## Machine integers -/

/-- The value of a 32 bit `int` holding `x` after conversion: the
representative of `x` modulo 2^32 in `[-2^31, 2^31)`. -/
def toInt32 (x : Int) : Int :=
  (x + 2147483648) % 4294967296 - 2147483648

/-- The integer `v` is a value of a 32 bit signed integer. -/
def IsInt32 (v : Int) : Prop := -2147483648 ≤ v ∧ v < 2147483648

instance (v : Int) : Decidable (IsInt32 v) := by
  unfold IsInt32
  infer_instance

/-- Modelled from the spec: the value of `sizeof(PropertyHeader)`. The structure
is declared in `StyleProperty.h`, which is not among the sources; the spec
describes the header as four 4-byte signed integers, 16 bytes. -/
def sizeofPropertyHeader : Int := 16

/-- Value of `sizeof(int32_t)`. -/
def sizeofInt32 : Int := 4

/-! ## Control flow -/

/-- A `switch (tag)` whose `case` blocks all return: the body of the first
label equal to the tag, or the `default` body when no label matches. -/
def switch {α : Type} (tag : Int) : List (Int × α) → α → α
  | [], dflt => dflt
  | (label, body) :: rest, dflt => if tag = label then body else switch tag rest dflt

/-! ## Header validation -/

/-- Embedding of `StyleProperty::IsPropertyValid`: the checks in source order. -/
def IsPropertyValid (ids : IDENTIFIER) (p : StyleProperty) : Bool :=
  if p.header.typeID < ids.ENUM ∨ p.header.typeID ≥ ids.COLORSCHEMES then false
  else if p.header.nameID = ids.COLOR ∧ p.header.typeID = ids.COLOR then true
  else if p.header.nameID = ids.FONT ∧ p.header.typeID = ids.FONT then true
  else if p.header.nameID = ids.DISKSTREAM ∧ p.header.typeID = ids.DISKSTREAM then true
  else if p.header.nameID = ids.STREAM ∧ p.header.typeID = ids.STREAM then true
  else if p.header.nameID < ids.COLORSCHEMES ∨ p.header.nameID > 10000 then false
  else if p.header.partID < 0 ∨ p.header.partID > 199 then false
  else if p.header.stateID < 0 ∨ p.header.stateID > 199 then false
  else true

/-- The pair (`nameID`, `typeID`) is one of COLOR/COLOR, FONT/FONT,
DISKSTREAM/DISKSTREAM, STREAM/STREAM. -/
def IsWhitelisted (ids : IDENTIFIER) (p : StyleProperty) : Prop :=
  (p.header.nameID = ids.COLOR ∧ p.header.typeID = ids.COLOR) ∨
  (p.header.nameID = ids.FONT ∧ p.header.typeID = ids.FONT) ∨
  (p.header.nameID = ids.DISKSTREAM ∧ p.header.typeID = ids.DISKSTREAM) ∨
  (p.header.nameID = ids.STREAM ∧ p.header.typeID = ids.STREAM)

instance (ids : IDENTIFIER) (p : StyleProperty) : Decidable (IsWhitelisted ids p) := by
  unfold IsWhitelisted
  infer_instance

/-! ## Size computation -/

/-- The `case` labels of the `switch` in `GetRegularPropertySize` are pairwise
different (C++ rejects a `switch` with a repeated label). -/
def IDENTIFIER.SizeLabelsDistinct (ids : IDENTIFIER) : Prop :=
  [ids.FILENAME, ids.DISKSTREAM, ids.FONT, ids.INT, ids.SIZE, ids.BOOL, ids.COLOR,
    ids.RECT, ids.MARGINS, ids.ENUM, ids.POSITION, ids.INTLIST, ids.STRING, 225,
    ids.UNKNOWN_241].Nodup

instance (ids : IDENTIFIER) : Decidable ids.SizeLabelsDistinct := by
  unfold IDENTIFIER.SizeLabelsDistinct
  infer_instance

/-- Embedding of `StyleProperty::GetRegularPropertySize`. The two computed sizes are
converted to the `int` that is returned: `numInts * sizeof(int32_t)` and the
sum it enters are evaluated in `size_t` and narrowed on return; the sum of the
STRING block is narrowed the same way. -/
def GetRegularPropertySize (ids : IDENTIFIER) (p : StyleProperty) : Int :=
  switch p.header.typeID
    [ (ids.FILENAME, 32),
      (ids.DISKSTREAM, 32),
      (ids.FONT, 32),
      (ids.INT, 40),
      (ids.SIZE, 40),
      (ids.BOOL, 40),
      (ids.COLOR, 40),
      (ids.RECT, 48),
      (ids.MARGINS, 48),
      (ids.ENUM, 40),
      (ids.POSITION, 40),
      (ids.INTLIST, toInt32 (20 + 12 + 4 + p.data.intlist.numInts * sizeofInt32)),
      (ids.STRING, toInt32 (20 + 8 + 4 + p.data.texttype.sizeInBytes)),
      (225, 40),
      (ids.UNKNOWN_241, 40) ]
    40

/-- Embedding of `StyleProperty::GetPropertySizeAsFound`: `sizeof(PropertyHeader) +
bytesAfterHeader`, converted to the `int` that is returned. -/
def GetPropertySizeAsFound (p : StyleProperty) : Int :=
  toInt32 (sizeofPropertyHeader + p.bytesAfterHeader)

/-! ## Value formatting -/

/-- Embedding of `std::to_string(int)`: signed decimal. -/
def to_string (v : Int) : String := toString v

/-- Expansion of a format string whose only directive is `%d` (the one the
source uses). The flag tells that the previous character was a `%` not yet
written; every `%d` takes the next argument, any other character is copied. -/
def sprintfAux : Bool → List Char → List Int → List Char
  | pct, [], _ => if pct then ['%'] else []
  | false, c :: rest, args =>
    if c = '%' then sprintfAux true rest args else c :: sprintfAux false rest args
  | true, c :: rest, args =>
    if c = 'd' then
      match args with
      | a :: args' => (to_string a).data ++ sprintfAux false rest args'
      | [] => '%' :: c :: sprintfAux false rest []
    else '%' :: c :: sprintfAux false rest args

/-- The text `sprintf(textbuffer, fmt, args...)` formats. -/
def sprintf (fmt : String) (args : List Int) : String :=
  String.mk (sprintfAux false fmt.data args)

/-- Size of `char textbuffer[64]`, the buffer `GetValueAsString` hands to
`sprintf`: a text fits when its characters and the terminator do. -/
def textbufferSize : Nat := 64

/-- The `case` labels of the `switch` in `GetValueAsString` are pairwise
different. -/
def IDENTIFIER.ValueLabelsDistinct (ids : IDENTIFIER) : Prop :=
  [ids.ENUM, ids.STRING, ids.INT, ids.BOOL, ids.COLOR, ids.MARGINS, ids.FILENAME,
    ids.DISKSTREAM, ids.SIZE, ids.POSITION, ids.RECT, ids.FONT, ids.INTLIST].Nodup

instance (ids : IDENTIFIER) : Decidable ids.ValueLabelsDistinct := by
  unfold IDENTIFIER.ValueLabelsDistinct
  infer_instance

/-- Embedding of `StyleProperty::GetValueAsString`: the text that is formatted. The source
stages the `sprintf` results in `char textbuffer[64]`; the value here is the
text `sprintf` is asked to write, whatever its length. It is what the call
returns whenever that text fits the buffer; `GetValueAsString_buffered` below
adds the buffer and tells when it does not. -/
def GetValueAsString (ids : IDENTIFIER) (lk : Lookup) (p : StyleProperty) : String :=
  switch p.header.typeID
    [ (ids.ENUM,
        match lk.GetEnumAsString p.header.nameID p.data.enumtype.enumvalue with
        | some enumStr => enumStr
        | none => "UNKNOWN ENUM"),
      (ids.STRING, lk.WideToUTF8 p.text),
      (ids.INT, to_string p.data.inttype.value),
      (ids.BOOL, if p.data.booltype.boolvalue > 0 then "true" else "false"),
      (ids.COLOR,
        sprintf "%d, %d, %d" [p.data.colortype.r, p.data.colortype.g, p.data.colortype.b]),
      (ids.MARGINS,
        sprintf "%d, %d, %d, %d" [p.data.margintype.left, p.data.margintype.top,
          p.data.margintype.right, p.data.margintype.bottom]),
      (ids.FILENAME, to_string p.data.imagetype.imageID),
      (ids.DISKSTREAM, to_string p.data.imagetype.imageID),
      (ids.SIZE, to_string p.data.sizetype.size),
      (ids.POSITION, sprintf "%d, %d" [p.data.positiontype.x, p.data.positiontype.y]),
      (ids.RECT,
        sprintf "%d, %d, %d, %d" [p.data.recttype.left, p.data.recttype.top,
          p.data.recttype.right, p.data.recttype.bottom]),
      (ids.FONT, lk.FindFontName p.data.fonttype.fontID),
      (ids.INTLIST,
        if p.data.intlist.numInts ≥ 3 then
          sprintf "Len: %d, Values: %d, %d, %d, ..." [p.data.intlist.numInts,
            p.data.intlist.firstInt 0, p.data.intlist.firstInt 1, p.data.intlist.firstInt 2]
        else sprintf "Len: %d, Values omitted" [p.data.intlist.numInts]) ]
    "Unsupported"

/-- Outcome of `sprintf(textbuffer, fmt, args...)` followed by
`std::string(textbuffer)`: the text, when its characters and the terminator fit
the 64 bytes of `textbuffer`; `none` when `sprintf` writes past the end of the
buffer, which is undefined behaviour. -/
def sprintf_textbuffer (fmt : String) (args : List Int) : Option String :=
  if (sprintf fmt args).length + 1 ≤ textbufferSize then some (sprintf fmt args) else none

/-- Embedding of `StyleProperty::GetValueAsString` with `char textbuffer[64]`:
the string returned, or `none` when the call overruns the buffer. The blocks
that do not use the buffer always return. -/
def GetValueAsString_buffered (ids : IDENTIFIER) (lk : Lookup) (p : StyleProperty) :
    Option String :=
  switch p.header.typeID
    [ (ids.ENUM,
        match lk.GetEnumAsString p.header.nameID p.data.enumtype.enumvalue with
        | some enumStr => some enumStr
        | none => some "UNKNOWN ENUM"),
      (ids.STRING, some (lk.WideToUTF8 p.text)),
      (ids.INT, some (to_string p.data.inttype.value)),
      (ids.BOOL, if p.data.booltype.boolvalue > 0 then some "true" else some "false"),
      (ids.COLOR,
        sprintf_textbuffer "%d, %d, %d"
          [p.data.colortype.r, p.data.colortype.g, p.data.colortype.b]),
      (ids.MARGINS,
        sprintf_textbuffer "%d, %d, %d, %d" [p.data.margintype.left, p.data.margintype.top,
          p.data.margintype.right, p.data.margintype.bottom]),
      (ids.FILENAME, some (to_string p.data.imagetype.imageID)),
      (ids.DISKSTREAM, some (to_string p.data.imagetype.imageID)),
      (ids.SIZE, some (to_string p.data.sizetype.size)),
      (ids.POSITION,
        sprintf_textbuffer "%d, %d" [p.data.positiontype.x, p.data.positiontype.y]),
      (ids.RECT,
        sprintf_textbuffer "%d, %d, %d, %d" [p.data.recttype.left, p.data.recttype.top,
          p.data.recttype.right, p.data.recttype.bottom]),
      (ids.FONT, some (lk.FindFontName p.data.fonttype.fontID)),
      (ids.INTLIST,
        if p.data.intlist.numInts ≥ 3 then
          sprintf_textbuffer "Len: %d, Values: %d, %d, %d, ..." [p.data.intlist.numInts,
            p.data.intlist.firstInt 0, p.data.intlist.firstInt 1, p.data.intlist.firstInt 2]
        else sprintf_textbuffer "Len: %d, Values omitted" [p.data.intlist.numInts]) ]
    (some "Unsupported")

/-! ## Equality -/

/-- Embedding of `StyleProperty::UpdateImageLink`. -/
def UpdateImageLink (p : StyleProperty) (imageID : Int) : StyleProperty :=
  { p with data := { p.data with imagetype := { p.data.imagetype with imageID := imageID } } }

/-- Embedding of `StyleProperty::UpdateInteger`. -/
def UpdateInteger (p : StyleProperty) (intVal : Int) : StyleProperty :=
  { p with data := { p.data with inttype := { p.data.inttype with value := intVal } } }

/-- Embedding of `StyleProperty::UpdateSize`. -/
def UpdateSize (p : StyleProperty) (size : Int) : StyleProperty :=
  { p with data := { p.data with sizetype := { p.data.sizetype with size := size } } }

/-- Embedding of `StyleProperty::UpdateEnum`. -/
def UpdateEnum (p : StyleProperty) (enumVal : Int) : StyleProperty :=
  { p with data := { p.data with enumtype := { p.data.enumtype with enumvalue := enumVal } } }

/-- Embedding of `StyleProperty::UpdateBoolean`: the `bool` argument is stored
as the integer 1 or 0. -/
def UpdateBoolean (p : StyleProperty) (boolVal : Bool) : StyleProperty :=
  { p with
    data :=
      { p.data with
        booltype := { p.data.booltype with boolvalue := if boolVal then 1 else 0 } } }

/-- Embedding of `StyleProperty::UpdateColor`: the arguments are `uint8_t`,
values 0 to 255, and are stored unchanged. -/
def UpdateColor (p : StyleProperty) (r g b : Fin 256) : StyleProperty :=
  { p with
    data :=
      { p.data with
        colortype := { p.data.colortype with r := (r.val : Int), g := (g.val : Int),
                                             b := (b.val : Int) } } }

/-- Embedding of `StyleProperty::UpdateRectangle`. -/
def UpdateRectangle (p : StyleProperty) (left top right bottom : Int) : StyleProperty :=
  { p with
    data :=
      { p.data with
        recttype := { p.data.recttype with left := left, top := top, right := right,
                                           bottom := bottom } } }

/-- Embedding of `StyleProperty::UpdateMargin`. -/
def UpdateMargin (p : StyleProperty) (left top right bottom : Int) : StyleProperty :=
  { p with
    data :=
      { p.data with
        margintype := { p.data.margintype with left := left, top := top, right := right,
                                               bottom := bottom } } }

/-- Embedding of `StyleProperty::UpdatePosition`. -/
def UpdatePosition (p : StyleProperty) (x y : Int) : StyleProperty :=
  { p with data := { p.data with positiontype := { p.data.positiontype with x := x, y := y } } }

/-- Embedding of `StyleProperty::UpdateFont`. -/
def UpdateFont (p : StyleProperty) (fontID : Int) : StyleProperty :=
  { p with data := { p.data with fonttype := { p.data.fonttype with fontID := fontID } } }

/-- What a mutator must leave alone outside the payload: from `p` to `q` the
header and bytesAfterHeader are the same, and so are the verdict of
`IsPropertyValid` and the as-found size. -/
def FrameKept (ids : IDENTIFIER) (p q : StyleProperty) : Prop :=
  q.header = p.header ∧ q.bytesAfterHeader = p.bytesAfterHeader ∧
    IsPropertyValid ids q = IsPropertyValid ids p ∧
    GetPropertySizeAsFound q = GetPropertySizeAsFound p

/-! ## Initializer -/

/-- The `case` labels of the `switch` in `Initialize` are pairwise different. -/
def IDENTIFIER.InitLabelsDistinct (ids : IDENTIFIER) : Prop :=
  [ids.DIBDATA, ids.GLYPHDIBDATA, ids.ENUM, ids.STRING, ids.INT, ids.BOOL, ids.COLOR,
    ids.MARGINS, ids.FILENAME, ids.SIZE, ids.POSITION, ids.RECT, ids.FONT, ids.INTLIST,
    ids.HBITMAP, ids.DISKSTREAM, ids.STREAM, ids.BITMAPREF, ids.FLOAT].Nodup

instance (ids : IDENTIFIER) : Decidable ids.InitLabelsDistinct := by
  unfold IDENTIFIER.InitLabelsDistinct
  infer_instance

/-- The two header assignments that open `Initialize`. -/
def setNameAndType (type ident : Int) (prop : StyleProperty) : StyleProperty :=
  { prop with header := { prop.header with nameID := ident, typeID := type } }

/-- Embedding of `StyleProperty::Initialize` (a static function writing through
the reference `prop`): the property after the call. -/
def Initialize (ids : IDENTIFIER) (type ident : Int) (prop : StyleProperty) : StyleProperty :=
  let prop := setNameAndType type ident prop
  switch type
    [ (ids.DIBDATA, prop),
      (ids.GLYPHDIBDATA, prop),
      (ids.ENUM,
        { prop with
          data := { prop.data with enumtype := { prop.data.enumtype with sizeInBytes := 0x4 } } }),
      (ids.STRING, prop),
      (ids.INT,
        { prop with
          data := { prop.data with inttype := { prop.data.inttype with sizeInBytes := 0x4 } } }),
      (ids.BOOL,
        { prop with
          data := { prop.data with booltype := { prop.data.booltype with sizeInBytes := 0x4 } } }),
      (ids.COLOR,
        { prop with
          data :=
            { prop.data with colortype := { prop.data.colortype with sizeInBytes := 0x4 } } }),
      (ids.MARGINS,
        { prop with
          data :=
            { prop.data with margintype := { prop.data.margintype with sizeInBytes := 0x10 } } }),
      (ids.FILENAME,
        { prop with
          data :=
            { prop.data with imagetype := { prop.data.imagetype with sizeInBytes := 0x10 } } }),
      (ids.SIZE, prop),
      (ids.POSITION,
        { prop with
          data :=
            { prop.data with
              positiontype := { prop.data.positiontype with sizeInBytes := 0x8 } } }),
      (ids.RECT,
        { prop with
          data := { prop.data with recttype := { prop.data.recttype with sizeInBytes := 0x10 } } }),
      (ids.FONT,
        { prop with
          data := { prop.data with fonttype := { prop.data.fonttype with sizeInBytes := 0x5C } } }),
      (ids.INTLIST, prop),
      (ids.HBITMAP, prop),
      (ids.DISKSTREAM, prop),
      (ids.STREAM, prop),
      (ids.BITMAPREF, prop),
      (ids.FLOAT, prop) ]
    prop

/-! ## Example values -/

/-- A payload with every field zero, for building examples. -/
def zeroData : PropertyData where
  enumtype := ⟨0, 0⟩
  inttype := ⟨0, 0⟩
  booltype := ⟨0, 0⟩
  colortype := ⟨0, 0, 0, 0⟩
  margintype := ⟨0, 0, 0, 0, 0⟩
  imagetype := ⟨0, 0⟩
  sizetype := ⟨0⟩
  positiontype := ⟨0, 0, 0⟩
  recttype := ⟨0, 0, 0, 0, 0⟩
  fonttype := ⟨0, 0⟩
  intlist := ⟨0, fun _ => 0⟩
  texttype := ⟨0⟩

/-- The property with the given header, a zero payload and no trailing bytes. -/
def headerOnly (nameID typeID partID stateID : Int) : StyleProperty where
  header := ⟨nameID, typeID, partID, stateID⟩
  data := zeroData
  bytesAfterHeader := 0
  text := []

/-- An INTLIST property (under the Windows identifiers) with the given count
and inline entries; entries past the end of the list read as 0. -/
def intlistOf (numInts : Int) (values : List Int) : StyleProperty :=
  { headerOnly 5000 211 0 0 with
    data := { zeroData with intlist := ⟨numInts, fun i => values.getD i 0⟩ } }

/-- A STRING property (under the Windows identifiers) with the given declared
byte length. -/
def stringOf (sizeInBytes : Int) : StyleProperty :=
  { headerOnly 5000 201 0 0 with data := { zeroData with texttype := ⟨sizeInBytes⟩ } }

/-- A BOOL property (under the Windows identifiers) with the given stored integer. -/
def boolOf (boolvalue : Int) : StyleProperty :=
  { headerOnly 5000 203 0 0 with data := { zeroData with booltype := ⟨4, boolvalue⟩ } }

/-- A COLOR property (under the Windows identifiers) with the given components. -/
def colorOf (r g b : Int) : StyleProperty :=
  { headerOnly 5000 204 0 0 with data := { zeroData with colortype := ⟨4, r, g, b⟩ } }

/-- Lookup tables that resolve nothing. -/
def emptyLookup : Lookup where
  GetEnumAsString := fun _ _ => none
  FindFontName := fun _ => ""
  WideToUTF8 := fun _ => ""

/-- A `switch` whose matching bodies and `default` body all yield `v` yields `v`. -/
theorem switch_of_forall {α : Type} (tag : Int) (cases : List (Int × α)) (dflt v : α)
    (hc : ∀ kv ∈ cases, tag = kv.1 → kv.2 = v) (hdf : dflt = v) :
    switch tag cases dflt = v := by
  induction cases with
  | nil => exact hdf
  | cons kv rest ih =>
    obtain ⟨label, body⟩ := kv
    unfold switch
    split_ifs with h
    · exact hc (label, body) (List.mem_cons_self _ _) h
    · exact ih (fun kv hkv => hc kv (List.mem_cons_of_mem _ hkv))

/-- With pairwise different labels, a `switch` on a tag that is a label yields
the body of that label. -/
theorem switch_hit {α : Type} (tag : Int) (cases : List (Int × α)) (dflt v : α)
    (hn : (cases.map Prod.fst).Nodup) (hm : (tag, v) ∈ cases) :
    switch tag cases dflt = v := by
  induction cases with
  | nil => simp at hm
  | cons kv rest ih =>
    obtain ⟨label, body⟩ := kv
    rw [List.map_cons, List.nodup_cons] at hn
    unfold switch
    rcases List.mem_cons.1 hm with heq | hrest
    · have h1 : tag = label := congrArg Prod.fst heq
      have h2 : v = body := congrArg Prod.snd heq
      rw [if_pos h1, h2]
    · have hne : tag ≠ label := by
        intro h
        apply hn.1
        rw [← h]
        exact List.mem_map.2 ⟨(tag, v), hrest, rfl⟩
      rw [if_neg hne]
      exact ih hn.2 hrest

/-- A `switch` on a tag that is no label yields the `default` body. -/
theorem switch_miss {α : Type} (tag : Int) (cases : List (Int × α)) (dflt : α)
    (hm : tag ∉ cases.map Prod.fst) : switch tag cases dflt = dflt := by
  induction cases with
  | nil => rfl
  | cons kv rest ih =>
    obtain ⟨label, body⟩ := kv
    rw [List.map_cons, List.mem_cons, not_or] at hm
    unfold switch
    rw [if_neg hm.1]
    exact ih hm.2

/-- With pairwise different labels, a `switch` on the label at position `i`
yields the body at position `i`. -/
theorem switch_hit_index {α : Type} (tag : Int) (cases : List (Int × α)) (dflt : α)
    (hn : (cases.map Prod.fst).Nodup) (i : Nat) (hi : i < cases.length)
    (ht : tag = cases[i].1) : switch tag cases dflt = cases[i].2 := by
  apply switch_hit _ _ _ _ hn
  rw [ht]
  exact List.getElem_mem hi

/-- What holds of every body and of the `default` body holds of the `switch`. -/
theorem switch_cases {α : Type} (P : α → Prop) (tag : Int) (cases : List (Int × α)) (dflt : α)
    (hc : ∀ kv ∈ cases, P kv.2) (hdf : P dflt) : P (switch tag cases dflt) := by
  induction cases with
  | nil => exact hdf
  | cons kv rest ih =>
    obtain ⟨label, body⟩ := kv
    unfold switch
    split_ifs with h
    · exact hc (label, body) (List.mem_cons_self _ _)
    · exact ih (fun kv hkv => hc kv (List.mem_cons_of_mem _ hkv))

/-- Two `switch`es with the same labels whose bodies are related pairwise, and
whose `default` bodies are related, have related results. -/
theorem switch_rel {α β : Type} (R : α → β → Prop) (tag : Int) (cs : List (Int × α))
    (ds : List (Int × β)) (d : α) (e : β)
    (h : List.Forall₂ (fun x y => x.1 = y.1 ∧ R x.2 y.2) cs ds) (hde : R d e) :
    R (switch tag cs d) (switch tag ds e) := by
  induction cs generalizing ds with
  | nil =>
    cases h
    exact hde
  | cons x cs' ih =>
    cases h with
    | cons hxy hrest =>
      rename_i y ds'
      obtain ⟨l1, b1⟩ := x
      obtain ⟨l2, b2⟩ := y
      have hl : l1 = l2 := hxy.1
      have hb : R b1 b2 := hxy.2
      subst hl
      unfold switch
      split_ifs
      · exact hb
      · exact ih ds' hrest

/-! ### Header validation -/

/-- Reading of `IsPropertyValid` as a proposition, without any assumption on
the enumeration: the type range check comes first, then the whitelist, then
the three remaining ranges. -/
theorem IsPropertyValid_iff (ids : IDENTIFIER) (p : StyleProperty) :
    IsPropertyValid ids p = true ↔
      (ids.ENUM ≤ p.header.typeID ∧ p.header.typeID < ids.COLORSCHEMES) ∧
        (IsWhitelisted ids p ∨
          ((ids.COLORSCHEMES ≤ p.header.nameID ∧ p.header.nameID ≤ 10000) ∧
            (0 ≤ p.header.partID ∧ p.header.partID ≤ 199) ∧
            (0 ≤ p.header.stateID ∧ p.header.stateID ≤ 199))) := by
  unfold IsPropertyValid IsWhitelisted
  split_ifs <;> simp_all <;> omega

/-- C1. `IsPropertyValid` is true exactly for the four whitelist pairs and for
the headers with ENUM <= typeID < COLORSCHEMES, COLORSCHEMES <= nameID <= 10000,
0 <= partID <= 199 and 0 <= stateID <= 199; typeID = COLORSCHEMES is rejected,
nameID = 10000 is accepted and nameID = 10001 is rejected. -/
theorem IsPropertyValid_spec (ids : IDENTIFIER) (hw : ids.WhitelistInRange)
    (hc : ids.COLORSCHEMES ≤ 10000) (p : StyleProperty) :
    (IsPropertyValid ids p = true ↔
      (IsWhitelisted ids p ∨
        ((ids.ENUM ≤ p.header.typeID ∧ p.header.typeID < ids.COLORSCHEMES) ∧
          (ids.COLORSCHEMES ≤ p.header.nameID ∧ p.header.nameID ≤ 10000) ∧
          (0 ≤ p.header.partID ∧ p.header.partID ≤ 199) ∧
          (0 ≤ p.header.stateID ∧ p.header.stateID ≤ 199)))) ∧
    (p.header.typeID = ids.COLORSCHEMES → IsPropertyValid ids p = false) ∧
    (p.header.nameID = 10000 →
      (ids.ENUM ≤ p.header.typeID ∧ p.header.typeID < ids.COLORSCHEMES) →
      (0 ≤ p.header.partID ∧ p.header.partID ≤ 199) →
      (0 ≤ p.header.stateID ∧ p.header.stateID ≤ 199) →
      IsPropertyValid ids p = true) ∧
    (p.header.nameID = 10001 → IsPropertyValid ids p = false) := by
  obtain ⟨⟨c1, c2⟩, ⟨f1, f2⟩, ⟨d1, d2⟩, ⟨s1, s2⟩⟩ := hw
  refine ⟨?_, ?_, ?_, ?_⟩
  · rw [IsPropertyValid_iff]
    unfold IsWhitelisted
    constructor
    · rintro ⟨ht, hw | hr⟩
      · exact Or.inl hw
      · exact Or.inr ⟨ht, hr⟩
    · rintro (hw | ⟨ht, hr⟩)
      · refine ⟨?_, Or.inl hw⟩
        rcases hw with ⟨_, h⟩ | ⟨_, h⟩ | ⟨_, h⟩ | ⟨_, h⟩ <;> rw [h] <;> constructor <;> assumption
      · exact ⟨ht, Or.inr hr⟩
  · intro h
    rw [← Bool.not_eq_true, IsPropertyValid_iff]
    omega
  · intro hn ht hp hs
    rw [IsPropertyValid_iff]
    exact ⟨ht, Or.inr ⟨by omega, hp, hs⟩⟩
  · intro hn
    rw [← Bool.not_eq_true, IsPropertyValid_iff]
    unfold IsWhitelisted
    omega

/-- Witness of C1 at the Windows identifiers: the header (10000, INT, 0, 199). -/
theorem IsPropertyValid_spec_witness :
    IDENTIFIER.tmt.WhitelistInRange ∧ IDENTIFIER.tmt.COLORSCHEMES ≤ 10000 ∧
      IsPropertyValid IDENTIFIER.tmt (headerOnly 10000 202 0 199) = true :=
  ⟨by decide, by decide,
    (IsPropertyValid_spec IDENTIFIER.tmt (by decide) (by decide)
      (headerOnly 10000 202 0 199)).2.2.1 rfl (by decide) (by decide) (by decide)⟩

/-- C3. A header whose (nameID, typeID) is one of the four whitelist pairs is
valid for every partID and stateID, negative and above 199 included: the
verdict of a whitelisted header does not change when partID and stateID are
replaced by arbitrary integers. -/
theorem IsPropertyValid_whitelist (ids : IDENTIFIER) (hw : ids.WhitelistInRange)
    (p : StyleProperty) (h : IsWhitelisted ids p) (partID stateID : Int) :
    IsPropertyValid ids
      { p with header := { p.header with partID := partID, stateID := stateID } } = true := by
  obtain ⟨⟨c1, c2⟩, ⟨f1, f2⟩, ⟨d1, d2⟩, ⟨s1, s2⟩⟩ := hw
  rw [IsPropertyValid_iff]
  refine ⟨?_, Or.inl h⟩
  rcases h with ⟨_, h⟩ | ⟨_, h⟩ | ⟨_, h⟩ | ⟨_, h⟩ <;>
    (show _ ≤ p.header.typeID ∧ p.header.typeID < _) <;> rw [h] <;> constructor <;> assumption

/-- Witness of C3: COLOR/COLOR with partID = -5 and stateID = 100000. -/
theorem IsPropertyValid_whitelist_witness :
    IDENTIFIER.tmt.WhitelistInRange ∧ IsWhitelisted IDENTIFIER.tmt (headerOnly 204 204 0 0) ∧
      IsPropertyValid IDENTIFIER.tmt (headerOnly 204 204 (-5) 100000) = true :=
  ⟨by decide, by decide,
    IsPropertyValid_whitelist IDENTIFIER.tmt (by decide) (headerOnly 204 204 0 0) (by decide)
      (-5) 100000⟩

/-- C4, as stated, fails: the header (COLOR, COLOR, 0, 0) has nameID = 204 below
COLORSCHEMES = 401 and is valid, by the whitelist. -/
theorem IsPropertyValid_below_COLORSCHEMES_counterexample :
    (headerOnly 204 204 0 0).header.nameID < IDENTIFIER.tmt.COLORSCHEMES ∧
      IsPropertyValid IDENTIFIER.tmt (headerOnly 204 204 0 0) = true := by
  decide

/-- C4, amended. A header with nameID < COLORSCHEMES whose (nameID, typeID) is
not one of the four whitelist pairs is invalid, whatever typeID, partID and
stateID are. -/
theorem IsPropertyValid_below_COLORSCHEMES (ids : IDENTIFIER) (p : StyleProperty)
    (hn : p.header.nameID < ids.COLORSCHEMES) (hw : ¬ IsWhitelisted ids p) :
    IsPropertyValid ids p = false := by
  rw [← Bool.not_eq_true, IsPropertyValid_iff]
  rintro ⟨_, h | h⟩
  · exact hw h
  · omega

/-- Witness of amended C4: the header (400, INT, 0, 0). -/
theorem IsPropertyValid_below_COLORSCHEMES_witness :
    (headerOnly 400 202 0 0).header.nameID < IDENTIFIER.tmt.COLORSCHEMES ∧
      ¬ IsWhitelisted IDENTIFIER.tmt (headerOnly 400 202 0 0) ∧
      IsPropertyValid IDENTIFIER.tmt (headerOnly 400 202 0 0) = false :=
  ⟨by decide, by decide,
    IsPropertyValid_below_COLORSCHEMES IDENTIFIER.tmt (headerOnly 400 202 0 0) (by decide)
      (by decide)⟩

/-! ### Size computation -/

/-- Conversion by `toInt32` is the identity on the values a 32 bit `int` can hold. -/
theorem toInt32_of_fits (x : Int) (h1 : -2147483648 ≤ x) (h2 : x < 2147483648) :
    toInt32 x = x := by
  unfold toInt32
  omega

/-- Conversion by `toInt32` always yields a value a 32 bit `int` can hold. -/
theorem toInt32_range (x : Int) : -2147483648 ≤ toInt32 x ∧ toInt32 x < 2147483648 := by
  unfold toInt32
  omega

/-- C2, as stated, fails: with bytesAfterHeader = 2147483647 the sum
16 + bytesAfterHeader is 2147483663, which the `int` returned cannot hold; the
result is -2147483633. -/
theorem GetPropertySizeAsFound_overflow :
    GetPropertySizeAsFound { headerOnly 5000 202 0 0 with bytesAfterHeader := 2147483647 } =
        -2147483633 ∧
      GetPropertySizeAsFound { headerOnly 5000 202 0 0 with bytesAfterHeader := 2147483647 } ≠
        16 + ({ headerOnly 5000 202 0 0 with
          bytesAfterHeader := 2147483647 } : StyleProperty).bytesAfterHeader := by
  decide

/-- C2, amended. Whenever 16 + bytesAfterHeader is a value of the 32 bit `int`
that is returned, `GetPropertySizeAsFound` is exactly 16 + bytesAfterHeader,
whatever the typeID (valid or not) and the payload: replacing header, payload
and text by any others leaves the result at that value. -/
theorem GetPropertySizeAsFound_eq (p : StyleProperty)
    (h1 : -2147483648 ≤ 16 + p.bytesAfterHeader) (h2 : 16 + p.bytesAfterHeader < 2147483648)
    (header : PropertyHeader) (data : PropertyData) (text : List Nat) :
    GetPropertySizeAsFound p = 16 + p.bytesAfterHeader ∧
      GetPropertySizeAsFound { p with header := header, data := data, text := text } =
        16 + p.bytesAfterHeader := by
  unfold GetPropertySizeAsFound sizeofPropertyHeader
  exact ⟨toInt32_of_fits _ h1 h2, toInt32_of_fits _ h1 h2⟩

/-- Witness of amended C2: 24 trailing bytes give 40, also under a typeID of 0. -/
theorem GetPropertySizeAsFound_eq_witness :
    GetPropertySizeAsFound { headerOnly 500 202 0 0 with bytesAfterHeader := 24 } = 16 + 24 ∧
      GetPropertySizeAsFound
        { headerOnly 500 202 0 0 with
          bytesAfterHeader := 24, header := ⟨500, 0, 0, 0⟩, data := zeroData, text := [] } =
        16 + 24 :=
  GetPropertySizeAsFound_eq { headerOnly 500 202 0 0 with bytesAfterHeader := 24 }
    (by decide) (by decide) ⟨500, 0, 0, 0⟩ zeroData []

/-- C5. For a typeID other than INTLIST and STRING the regular size is a
function of the typeID alone and is the table value: 32 for FILENAME,
DISKSTREAM and FONT, 48 for RECT and MARGINS, 40 for INT, SIZE, BOOL, COLOR,
ENUM, POSITION, 225 and UNKNOWN_241, and 40 for every typeID that matches no
label. -/
theorem GetRegularPropertySize_table (ids : IDENTIFIER) (hd : ids.SizeLabelsDistinct)
    (p : StyleProperty) (hI : p.header.typeID ≠ ids.INTLIST)
    (hS : p.header.typeID ≠ ids.STRING) :
    (∀ q : StyleProperty, q.header.typeID = p.header.typeID →
      GetRegularPropertySize ids q = GetRegularPropertySize ids p) ∧
    (p.header.typeID = ids.FILENAME ∨ p.header.typeID = ids.DISKSTREAM ∨
      p.header.typeID = ids.FONT → GetRegularPropertySize ids p = 32) ∧
    (p.header.typeID = ids.RECT ∨ p.header.typeID = ids.MARGINS →
      GetRegularPropertySize ids p = 48) ∧
    (p.header.typeID = ids.INT ∨ p.header.typeID = ids.SIZE ∨ p.header.typeID = ids.BOOL ∨
      p.header.typeID = ids.COLOR ∨ p.header.typeID = ids.ENUM ∨
      p.header.typeID = ids.POSITION ∨ p.header.typeID = 225 ∨
      p.header.typeID = ids.UNKNOWN_241 → GetRegularPropertySize ids p = 40) ∧
    (p.header.typeID ∉ [ids.FILENAME, ids.DISKSTREAM, ids.FONT, ids.INT, ids.SIZE, ids.BOOL,
        ids.COLOR, ids.RECT, ids.MARGINS, ids.ENUM, ids.POSITION, ids.INTLIST, ids.STRING, 225,
        ids.UNKNOWN_241] → GetRegularPropertySize ids p = 40) := by
  refine ⟨?_, ?_, ?_, ?_, ?_⟩
  · intro q hq
    unfold GetRegularPropertySize
    rw [hq]
    simp [switch, hI, hS]
  · intro h
    refine switch_hit _ _ _ _ hd ?_
    rcases h with h | h | h <;> rw [h] <;> simp
  · intro h
    refine switch_hit _ _ _ _ hd ?_
    rcases h with h | h <;> rw [h] <;> simp
  · intro h
    refine switch_hit _ _ _ _ hd ?_
    rcases h with h | h | h | h | h | h | h | h <;> rw [h] <;> simp
  · intro h
    exact switch_miss _ _ _ h

/-- Witness of C5 at the Windows identifiers: a RECT property has regular size 48. -/
theorem GetRegularPropertySize_table_witness :
    IDENTIFIER.tmt.SizeLabelsDistinct ∧
      (headerOnly 5000 209 0 0).header.typeID ≠ IDENTIFIER.tmt.INTLIST ∧
      (headerOnly 5000 209 0 0).header.typeID ≠ IDENTIFIER.tmt.STRING ∧
      GetRegularPropertySize IDENTIFIER.tmt (headerOnly 5000 209 0 0) = 48 :=
  ⟨by decide, by decide, by decide,
    (GetRegularPropertySize_table IDENTIFIER.tmt (by decide) (headerOnly 5000 209 0 0)
      (by decide) (by decide)).2.2.1 (Or.inl rfl)⟩

/-- C6, as stated, fails. An INTLIST property with numInts = 536870903 has
20 + 12 + 4 + 4 * numInts = 2147483648, which the `int` returned cannot hold:
the result is -2147483648. A STRING property with sizeInBytes = 2147483647 has
20 + 8 + 4 + sizeInBytes = 2147483679 and the result is -2147483617. -/
theorem GetRegularPropertySize_overflow :
    (0 ≤ (intlistOf 536870903 []).data.intlist.numInts ∧
      (intlistOf 536870903 []).data.intlist.numInts < 2147483648 ∧
      GetRegularPropertySize IDENTIFIER.tmt (intlistOf 536870903 []) = -2147483648 ∧
      GetRegularPropertySize IDENTIFIER.tmt (intlistOf 536870903 []) ≠
        20 + 12 + 4 + 4 * (intlistOf 536870903 []).data.intlist.numInts) ∧
    (0 ≤ (stringOf 2147483647).data.texttype.sizeInBytes ∧
      (stringOf 2147483647).data.texttype.sizeInBytes < 2147483648 ∧
      GetRegularPropertySize IDENTIFIER.tmt (stringOf 2147483647) = -2147483617 ∧
      GetRegularPropertySize IDENTIFIER.tmt (stringOf 2147483647) ≠
        20 + 8 + 4 + (stringOf 2147483647).data.texttype.sizeInBytes) := by
  decide

/-- C6, amended. An INTLIST property with a non-negative count whose size
20 + 12 + 4 + 4 * numInts is below 2^31 has exactly that regular size, and a
STRING property with a non-negative declared length whose size
20 + 8 + 4 + sizeInBytes is below 2^31 has exactly that regular size. -/
theorem GetRegularPropertySize_computed (ids : IDENTIFIER) (hd : ids.SizeLabelsDistinct)
    (p : StyleProperty) :
    (p.header.typeID = ids.INTLIST → 0 ≤ p.data.intlist.numInts →
      20 + 12 + 4 + 4 * p.data.intlist.numInts < 2147483648 →
      GetRegularPropertySize ids p = 20 + 12 + 4 + 4 * p.data.intlist.numInts) ∧
    (p.header.typeID = ids.STRING → 0 ≤ p.data.texttype.sizeInBytes →
      20 + 8 + 4 + p.data.texttype.sizeInBytes < 2147483648 →
      GetRegularPropertySize ids p = 20 + 8 + 4 + p.data.texttype.sizeInBytes) := by
  constructor
  · intro h h0 h1
    have hs : GetRegularPropertySize ids p =
        toInt32 (20 + 12 + 4 + p.data.intlist.numInts * sizeofInt32) := by
      refine switch_hit _ _ _ _ hd ?_
      rw [h]
      simp
    rw [hs, toInt32_of_fits] <;> unfold sizeofInt32 <;> omega
  · intro h h0 h1
    have hs : GetRegularPropertySize ids p =
        toInt32 (20 + 8 + 4 + p.data.texttype.sizeInBytes) := by
      refine switch_hit _ _ _ _ hd ?_
      rw [h]
      simp
    rw [hs, toInt32_of_fits] <;> omega

/-- Witness of amended C6: the largest count that fits, 536870902, gives
2147483644; a string of 10 bytes gives 42. -/
theorem GetRegularPropertySize_computed_witness :
    IDENTIFIER.tmt.SizeLabelsDistinct ∧
      GetRegularPropertySize IDENTIFIER.tmt (intlistOf 536870902 []) = 2147483644 ∧
      GetRegularPropertySize IDENTIFIER.tmt (stringOf 10) = 42 :=
  ⟨by decide,
    (GetRegularPropertySize_computed IDENTIFIER.tmt (by decide) (intlistOf 536870902 [])).1 rfl
      (by decide) (by decide),
    (GetRegularPropertySize_computed IDENTIFIER.tmt (by decide) (stringOf 10)).2 rfl
      (by decide) (by decide)⟩

/-! ### Value formatting -/

/-- Signed decimal at the ends and the middle of the 32 bit range. -/
theorem to_string_examples :
    to_string 0 = "0" ∧ to_string 255 = "255" ∧ to_string (-1) = "-1" ∧
      to_string 2147483647 = "2147483647" ∧ to_string (-2147483648) = "-2147483648" := by
  decide

/-- The characters of a `sprintf` result. -/
theorem sprintf_data (fmt : String) (args : List Int) :
    (sprintf fmt args).data = sprintfAux false fmt.data args := rfl

/-- Expansion of the format of a pair. -/
theorem sprintf_pair (a b : Int) :
    sprintf "%d, %d" [a, b] = to_string a ++ ", " ++ to_string b := by
  apply String.ext
  simp only [String.data_append, sprintf_data]
  simp [sprintfAux]

/-- Expansion of the format of a triple. -/
theorem sprintf_triple (a b c : Int) :
    sprintf "%d, %d, %d" [a, b, c] = to_string a ++ ", " ++ to_string b ++ ", " ++ to_string c := by
  apply String.ext
  simp only [String.data_append, sprintf_data]
  simp [sprintfAux]

/-- Expansion of the format of a quadruple. -/
theorem sprintf_quadruple (a b c d : Int) :
    sprintf "%d, %d, %d, %d" [a, b, c, d] =
      to_string a ++ ", " ++ to_string b ++ ", " ++ to_string c ++ ", " ++ to_string d := by
  apply String.ext
  simp only [String.data_append, sprintf_data]
  simp [sprintfAux]

/-- Expansion of the format of an integer list of three entries or more. -/
theorem sprintf_values (n a b c : Int) :
    sprintf "Len: %d, Values: %d, %d, %d, ..." [n, a, b, c] =
      "Len: " ++ to_string n ++ ", Values: " ++ to_string a ++ ", " ++ to_string b ++ ", " ++
        to_string c ++ ", ..." := by
  apply String.ext
  simp only [String.data_append, sprintf_data]
  simp [sprintfAux]

/-- Expansion of the format of an integer list of fewer than three entries. -/
theorem sprintf_omitted (n : Int) :
    sprintf "Len: %d, Values omitted" [n] = "Len: " ++ to_string n ++ ", Values omitted" := by
  apply String.ext
  simp only [String.data_append, sprintf_data]
  simp [sprintfAux]

/-- The INTLIST block of `GetValueAsString`. -/
theorem GetValueAsString_INTLIST (ids : IDENTIFIER) (hd : ids.ValueLabelsDistinct) (lk : Lookup)
    (p : StyleProperty) (h : p.header.typeID = ids.INTLIST) :
    GetValueAsString ids lk p =
      if p.data.intlist.numInts ≥ 3 then
        sprintf "Len: %d, Values: %d, %d, %d, ..." [p.data.intlist.numInts,
          p.data.intlist.firstInt 0, p.data.intlist.firstInt 1, p.data.intlist.firstInt 2]
      else sprintf "Len: %d, Values omitted" [p.data.intlist.numInts] := by
  refine switch_hit _ _ _ _ hd ?_
  rw [h]
  simp

/-- The BOOL block of `GetValueAsString`. -/
theorem GetValueAsString_BOOL (ids : IDENTIFIER) (hd : ids.ValueLabelsDistinct) (lk : Lookup)
    (p : StyleProperty) (h : p.header.typeID = ids.BOOL) :
    GetValueAsString ids lk p = if p.data.booltype.boolvalue > 0 then "true" else "false" := by
  refine switch_hit _ _ _ _ hd ?_
  rw [h]
  simp

/-- The COLOR block of `GetValueAsString`. -/
theorem GetValueAsString_COLOR (ids : IDENTIFIER) (hd : ids.ValueLabelsDistinct) (lk : Lookup)
    (p : StyleProperty) (h : p.header.typeID = ids.COLOR) :
    GetValueAsString ids lk p =
      sprintf "%d, %d, %d" [p.data.colortype.r, p.data.colortype.g, p.data.colortype.b] := by
  refine switch_hit _ _ _ _ hd ?_
  rw [h]
  simp

/-- The MARGINS block of `GetValueAsString`. -/
theorem GetValueAsString_MARGINS (ids : IDENTIFIER) (hd : ids.ValueLabelsDistinct) (lk : Lookup)
    (p : StyleProperty) (h : p.header.typeID = ids.MARGINS) :
    GetValueAsString ids lk p =
      sprintf "%d, %d, %d, %d" [p.data.margintype.left, p.data.margintype.top,
        p.data.margintype.right, p.data.margintype.bottom] := by
  refine switch_hit _ _ _ _ hd ?_
  rw [h]
  simp

/-- The RECT block of `GetValueAsString`. -/
theorem GetValueAsString_RECT (ids : IDENTIFIER) (hd : ids.ValueLabelsDistinct) (lk : Lookup)
    (p : StyleProperty) (h : p.header.typeID = ids.RECT) :
    GetValueAsString ids lk p =
      sprintf "%d, %d, %d, %d" [p.data.recttype.left, p.data.recttype.top,
        p.data.recttype.right, p.data.recttype.bottom] := by
  refine switch_hit _ _ _ _ hd ?_
  rw [h]
  simp

/-- The POSITION block of `GetValueAsString`. -/
theorem GetValueAsString_POSITION (ids : IDENTIFIER) (hd : ids.ValueLabelsDistinct) (lk : Lookup)
    (p : StyleProperty) (h : p.header.typeID = ids.POSITION) :
    GetValueAsString ids lk p =
      sprintf "%d, %d" [p.data.positiontype.x, p.data.positiontype.y] := by
  refine switch_hit _ _ _ _ hd ?_
  rw [h]
  simp

/-- Text of the INTLIST block, as handed to `sprintf`. With count N >= 3 it is
"Len: N, Values: v0, v1, v2, ..." from the decimal count and the first three
entries, so two such properties that agree on the count and on the first three
entries have the same text; with N < 3 it is "Len: N, Values omitted" and two
properties with the same count have the same text. Count 2 gives
"Len: 2, Values omitted"; count 5 with first entries 1, 2, 3 gives
"Len: 5, Values: 1, 2, 3, ...". Whether the call returns this text is the
matter of `GetValueAsString_buffered_intlist`. -/
theorem GetValueAsString_intlist (ids : IDENTIFIER) (hd : ids.ValueLabelsDistinct) (lk : Lookup)
    (p : StyleProperty) (h : p.header.typeID = ids.INTLIST) :
    (3 ≤ p.data.intlist.numInts →
      GetValueAsString ids lk p =
        "Len: " ++ to_string p.data.intlist.numInts ++ ", Values: " ++
          to_string (p.data.intlist.firstInt 0) ++ ", " ++
          to_string (p.data.intlist.firstInt 1) ++ ", " ++
          to_string (p.data.intlist.firstInt 2) ++ ", ...") ∧
    (p.data.intlist.numInts < 3 →
      GetValueAsString ids lk p =
        "Len: " ++ to_string p.data.intlist.numInts ++ ", Values omitted") ∧
    (∀ q : StyleProperty, q.header.typeID = ids.INTLIST →
      q.data.intlist.numInts = p.data.intlist.numInts → 3 ≤ p.data.intlist.numInts →
      q.data.intlist.firstInt 0 = p.data.intlist.firstInt 0 →
      q.data.intlist.firstInt 1 = p.data.intlist.firstInt 1 →
      q.data.intlist.firstInt 2 = p.data.intlist.firstInt 2 →
      GetValueAsString ids lk q = GetValueAsString ids lk p) ∧
    (∀ q : StyleProperty, q.header.typeID = ids.INTLIST →
      q.data.intlist.numInts = p.data.intlist.numInts → p.data.intlist.numInts < 3 →
      GetValueAsString ids lk q = GetValueAsString ids lk p) ∧
    (p.data.intlist.numInts = 2 → GetValueAsString ids lk p = "Len: 2, Values omitted") ∧
    (p.data.intlist.numInts = 5 → p.data.intlist.firstInt 0 = 1 →
      p.data.intlist.firstInt 1 = 2 → p.data.intlist.firstInt 2 = 3 →
      GetValueAsString ids lk p = "Len: 5, Values: 1, 2, 3, ...") := by
  refine ⟨?_, ?_, ?_, ?_, ?_, ?_⟩
  · intro hn
    rw [GetValueAsString_INTLIST ids hd lk p h, if_pos hn, sprintf_values]
  · intro hn
    rw [GetValueAsString_INTLIST ids hd lk p h, if_neg (not_le.2 hn), sprintf_omitted]
  · intro q hq hc hn h0 h1 h2
    rw [GetValueAsString_INTLIST ids hd lk p h, GetValueAsString_INTLIST ids hd lk q hq,
      hc, h0, h1, h2]
  · intro q hq hc hn
    rw [GetValueAsString_INTLIST ids hd lk p h, GetValueAsString_INTLIST ids hd lk q hq,
      hc, if_neg (not_le.2 hn), if_neg (not_le.2 hn)]
  · intro hn
    rw [GetValueAsString_INTLIST ids hd lk p h, hn, if_neg (by decide)]
    decide
  · intro hn h0 h1 h2
    rw [GetValueAsString_INTLIST ids hd lk p h, hn, h0, h1, h2]
    decide

/-- C9. A BOOL property formats as "true" exactly when the stored integer is
strictly greater than 0 and as "false" otherwise; 1 gives "true", 0 and -1
give "false". -/
theorem GetValueAsString_bool (ids : IDENTIFIER) (hd : ids.ValueLabelsDistinct) (lk : Lookup)
    (p : StyleProperty) (h : p.header.typeID = ids.BOOL) :
    (GetValueAsString ids lk p = "true" ↔ p.data.booltype.boolvalue > 0) ∧
    (¬ p.data.booltype.boolvalue > 0 → GetValueAsString ids lk p = "false") ∧
    (p.data.booltype.boolvalue = 1 → GetValueAsString ids lk p = "true") ∧
    (p.data.booltype.boolvalue = 0 → GetValueAsString ids lk p = "false") ∧
    (p.data.booltype.boolvalue = -1 → GetValueAsString ids lk p = "false") := by
  rw [GetValueAsString_BOOL ids hd lk p h]
  refine ⟨?_, ?_, ?_, ?_, ?_⟩
  · constructor
    · intro ht
      by_contra hn
      rw [if_neg hn] at ht
      exact absurd ht (by decide)
    · intro hp
      rw [if_pos hp]
  · intro hn
    rw [if_neg hn]
  · intro hv
    rw [if_pos (by omega)]
  · intro hv
    rw [if_neg (by omega)]
  · intro hv
    rw [if_neg (by omega)]

/-- Witness of C9: the stored integer -1 formats as "false". -/
theorem GetValueAsString_bool_witness :
    IDENTIFIER.tmt.ValueLabelsDistinct ∧ (boolOf (-1)).header.typeID = IDENTIFIER.tmt.BOOL ∧
      GetValueAsString IDENTIFIER.tmt emptyLookup (boolOf (-1)) = "false" :=
  ⟨by decide, rfl,
    (GetValueAsString_bool IDENTIFIER.tmt (by decide) emptyLookup (boolOf (-1)) rfl).2.2.2.2 rfl⟩

/-- C10. The tuple types format as their components in signed decimal joined
by ", " in declaration order: COLOR as "r, g, b", MARGINS and RECT as
"left, top, right, bottom", POSITION as "x, y"; the color (10, 20, 30) formats
as "10, 20, 30" and the position (-5, 7) as "-5, 7". -/
theorem GetValueAsString_tuple (ids : IDENTIFIER) (hd : ids.ValueLabelsDistinct) (lk : Lookup)
    (p : StyleProperty) :
    (p.header.typeID = ids.COLOR →
      GetValueAsString ids lk p =
        to_string p.data.colortype.r ++ ", " ++ to_string p.data.colortype.g ++ ", " ++
          to_string p.data.colortype.b) ∧
    (p.header.typeID = ids.MARGINS →
      GetValueAsString ids lk p =
        to_string p.data.margintype.left ++ ", " ++ to_string p.data.margintype.top ++ ", " ++
          to_string p.data.margintype.right ++ ", " ++ to_string p.data.margintype.bottom) ∧
    (p.header.typeID = ids.RECT →
      GetValueAsString ids lk p =
        to_string p.data.recttype.left ++ ", " ++ to_string p.data.recttype.top ++ ", " ++
          to_string p.data.recttype.right ++ ", " ++ to_string p.data.recttype.bottom) ∧
    (p.header.typeID = ids.POSITION →
      GetValueAsString ids lk p =
        to_string p.data.positiontype.x ++ ", " ++ to_string p.data.positiontype.y) ∧
    (p.header.typeID = ids.COLOR → p.data.colortype.r = 10 → p.data.colortype.g = 20 →
      p.data.colortype.b = 30 → GetValueAsString ids lk p = "10, 20, 30") ∧
    (p.header.typeID = ids.POSITION → p.data.positiontype.x = -5 →
      p.data.positiontype.y = 7 → GetValueAsString ids lk p = "-5, 7") := by
  refine ⟨?_, ?_, ?_, ?_, ?_, ?_⟩
  · intro h
    rw [GetValueAsString_COLOR ids hd lk p h, sprintf_triple]
  · intro h
    rw [GetValueAsString_MARGINS ids hd lk p h, sprintf_quadruple]
  · intro h
    rw [GetValueAsString_RECT ids hd lk p h, sprintf_quadruple]
  · intro h
    rw [GetValueAsString_POSITION ids hd lk p h, sprintf_pair]
  · intro h hr hg hb
    rw [GetValueAsString_COLOR ids hd lk p h, hr, hg, hb]
    decide
  · intro h hx hy
    rw [GetValueAsString_POSITION ids hd lk p h, hx, hy]
    decide

/-- Witness of C10: the color (10, 20, 30), under the Windows identifiers. -/
theorem GetValueAsString_tuple_witness :
    IDENTIFIER.tmt.ValueLabelsDistinct ∧
      (colorOf 10 20 30).header.typeID = IDENTIFIER.tmt.COLOR ∧
      GetValueAsString IDENTIFIER.tmt emptyLookup (colorOf 10 20 30) = "10, 20, 30" :=
  ⟨by decide, rfl,
    (GetValueAsString_tuple IDENTIFIER.tmt (by decide) emptyLookup (colorOf 10 20 30)).2.2.2.2.1
      rfl rfl rfl rfl⟩

/-! ### Equality -/

/-- Whatever the type, `Initialize` leaves the header with the given name and
type and with the partID and stateID it had, and leaves bytesAfterHeader and
the text as they were. -/
theorem Initialize_frame (ids : IDENTIFIER) (type ident : Int) (prop : StyleProperty) :
    (Initialize ids type ident prop).header = ⟨ident, type, prop.header.partID,
        prop.header.stateID⟩ ∧
      (Initialize ids type ident prop).bytesAfterHeader = prop.bytesAfterHeader ∧
      (Initialize ids type ident prop).text = prop.text := by
  unfold Initialize
  refine switch_cases
    (fun q : StyleProperty =>
      q.header = ⟨ident, type, prop.header.partID, prop.header.stateID⟩ ∧
        q.bytesAfterHeader = prop.bytesAfterHeader ∧ q.text = prop.text) _ _ _ ?_ ?_
  · intro kv hkv
    simp only [List.mem_cons, List.not_mem_nil, or_false] at hkv
    rcases hkv with h | h | h | h | h | h | h | h | h | h | h | h | h | h | h | h | h | h | h <;>
      rw [h] <;> exact ⟨rfl, rfl, rfl⟩
  · exact ⟨rfl, rfl, rfl⟩

/-- C12. After `Initialize(T, N, prop)` the header has nameID = N and
typeID = T, and the reserved size subfield of the type is 4 for ENUM, INT and
BOOL, 16 for MARGINS, FILENAME and RECT, 8 for POSITION and 0x5C for FONT. -/
theorem Initialize_reserved (ids : IDENTIFIER) (hi : ids.InitLabelsDistinct)
    (T N : Int) (prop : StyleProperty) :
    (Initialize ids T N prop).header.nameID = N ∧
    (Initialize ids T N prop).header.typeID = T ∧
    (T = ids.ENUM → (Initialize ids T N prop).data.enumtype.sizeInBytes = 4) ∧
    (T = ids.INT → (Initialize ids T N prop).data.inttype.sizeInBytes = 4) ∧
    (T = ids.BOOL → (Initialize ids T N prop).data.booltype.sizeInBytes = 4) ∧
    (T = ids.MARGINS → (Initialize ids T N prop).data.margintype.sizeInBytes = 16) ∧
    (T = ids.FILENAME → (Initialize ids T N prop).data.imagetype.sizeInBytes = 16) ∧
    (T = ids.POSITION → (Initialize ids T N prop).data.positiontype.sizeInBytes = 8) ∧
    (T = ids.RECT → (Initialize ids T N prop).data.recttype.sizeInBytes = 16) ∧
    (T = ids.FONT → (Initialize ids T N prop).data.fonttype.sizeInBytes = 0x5C) := by
  have hf := (Initialize_frame ids T N prop).1
  refine ⟨by rw [hf], by rw [hf], ?_, ?_, ?_, ?_, ?_, ?_, ?_, ?_⟩ <;> intro h
  · have hs : Initialize ids T N prop = _ :=
      switch_hit_index T _ _ (by exact hi) 2 (by simp) h
    rw [hs]
    rfl
  · have hs : Initialize ids T N prop = _ :=
      switch_hit_index T _ _ (by exact hi) 4 (by simp) h
    rw [hs]
    rfl
  · have hs : Initialize ids T N prop = _ :=
      switch_hit_index T _ _ (by exact hi) 5 (by simp) h
    rw [hs]
    rfl
  · have hs : Initialize ids T N prop = _ :=
      switch_hit_index T _ _ (by exact hi) 7 (by simp) h
    rw [hs]
    rfl
  · have hs : Initialize ids T N prop = _ :=
      switch_hit_index T _ _ (by exact hi) 8 (by simp) h
    rw [hs]
    rfl
  · have hs : Initialize ids T N prop = _ :=
      switch_hit_index T _ _ (by exact hi) 10 (by simp) h
    rw [hs]
    rfl
  · have hs : Initialize ids T N prop = _ :=
      switch_hit_index T _ _ (by exact hi) 11 (by simp) h
    rw [hs]
    rfl
  · have hs : Initialize ids T N prop = _ :=
      switch_hit_index T _ _ (by exact hi) 12 (by simp) h
    rw [hs]
    rfl

/-- Witness of C12 at the Windows identifiers: `Initialize(FONT, 5000)`. -/
theorem Initialize_reserved_witness :
    IDENTIFIER.tmt.InitLabelsDistinct ∧
      (Initialize IDENTIFIER.tmt 210 5000 (headerOnly 0 0 0 0)).header.nameID = 5000 ∧
      (Initialize IDENTIFIER.tmt 210 5000 (headerOnly 0 0 0 0)).header.typeID = 210 ∧
      (Initialize IDENTIFIER.tmt 210 5000 (headerOnly 0 0 0 0)).data.fonttype.sizeInBytes =
        0x5C :=
  ⟨by decide,
    (Initialize_reserved IDENTIFIER.tmt (by decide) 210 5000 (headerOnly 0 0 0 0)).1,
    (Initialize_reserved IDENTIFIER.tmt (by decide) 210 5000 (headerOnly 0 0 0 0)).2.1,
    (Initialize_reserved IDENTIFIER.tmt (by decide) 210 5000
      (headerOnly 0 0 0 0)).2.2.2.2.2.2.2.2.2 rfl⟩

/-- C13, as stated, fails: COLOR is none of ENUM, INT, BOOL, MARGINS, FILENAME,
POSITION, RECT, FONT, and `Initialize(COLOR, 5000, prop)` sets the reserved size
subfield of the color member to 4 where it was 0. -/
theorem Initialize_color_counterexample :
    IDENTIFIER.tmt.COLOR ∉ [IDENTIFIER.tmt.ENUM, IDENTIFIER.tmt.INT, IDENTIFIER.tmt.BOOL,
        IDENTIFIER.tmt.MARGINS, IDENTIFIER.tmt.FILENAME, IDENTIFIER.tmt.POSITION,
        IDENTIFIER.tmt.RECT, IDENTIFIER.tmt.FONT] ∧
      (headerOnly 0 0 0 0).data.colortype.sizeInBytes = 0 ∧
      (Initialize IDENTIFIER.tmt IDENTIFIER.tmt.COLOR 5000
        (headerOnly 0 0 0 0)).data.colortype.sizeInBytes = 4 := by
  decide

/-- C13, amended. For every type T other than ENUM, INT, BOOL, COLOR, MARGINS,
FILENAME, POSITION, RECT and FONT, `Initialize(T, N, prop)` writes nameID and
typeID and nothing else: payload (reserved size subfields included), partID,
stateID, bytesAfterHeader and text are as before the call. -/
theorem Initialize_other (ids : IDENTIFIER) (T N : Int) (prop : StyleProperty)
    (h : T ∉ [ids.ENUM, ids.INT, ids.BOOL, ids.COLOR, ids.MARGINS, ids.FILENAME, ids.POSITION,
      ids.RECT, ids.FONT]) :
    Initialize ids T N prop =
        { prop with header := { prop.header with nameID := N, typeID := T } } ∧
      (Initialize ids T N prop).data = prop.data ∧
      (Initialize ids T N prop).header.partID = prop.header.partID ∧
      (Initialize ids T N prop).header.stateID = prop.header.stateID ∧
      (Initialize ids T N prop).bytesAfterHeader = prop.bytesAfterHeader := by
  have key : Initialize ids T N prop = setNameAndType T N prop := by
    unfold Initialize
    refine switch_of_forall _ _ _ _ ?_ rfl
    simp only [List.mem_cons, List.not_mem_nil, or_false, not_or] at h
    obtain ⟨h1, h2, h3, h4, h5, h6, h7, h8, h9⟩ := h
    intro kv hkv
    simp only [List.mem_cons, List.not_mem_nil, or_false] at hkv
    rcases hkv with e | e | e | e | e | e | e | e | e | e | e | e | e | e | e | e | e | e | e <;>
      rw [e] <;> intro ht <;> first | rfl | exact absurd ht ‹_›
  rw [key]
  exact ⟨rfl, rfl, rfl, rfl, rfl⟩

/-- Witness of amended C13: `Initialize(SIZE, 5000, prop)` on a property with
non-zero payload and qualifiers. -/
theorem Initialize_other_witness :
    (207 : Int) ∉ [IDENTIFIER.tmt.ENUM, IDENTIFIER.tmt.INT, IDENTIFIER.tmt.BOOL,
        IDENTIFIER.tmt.COLOR, IDENTIFIER.tmt.MARGINS, IDENTIFIER.tmt.FILENAME,
        IDENTIFIER.tmt.POSITION, IDENTIFIER.tmt.RECT, IDENTIFIER.tmt.FONT] ∧
      (Initialize IDENTIFIER.tmt 207 5000 (colorOf 1 2 3)).data = (colorOf 1 2 3).data ∧
      (Initialize IDENTIFIER.tmt 207 5000 (colorOf 1 2 3)).header.typeID = 207 :=
  ⟨by decide, (Initialize_other IDENTIFIER.tmt 207 5000 (colorOf 1 2 3) (by decide)).2.1,
    congrArg (fun q : StyleProperty => q.header.typeID)
      (Initialize_other IDENTIFIER.tmt 207 5000 (colorOf 1 2 3) (by decide)).1⟩

/-! ### Mutators -/

/-- C14. Each of the ten Update operations stores its arguments in the value
fields it is named for and keeps the header, bytesAfterHeader and the reserved
size subfield of the member it writes to; the verdict of `IsPropertyValid` and
the as-found size are the same before and after. This holds for every
property, so in particular for one whose typeID matches the operation. -/
theorem Update_frame (ids : IDENTIFIER) (p : StyleProperty) :
    (∀ v : Int, FrameKept ids p (UpdateImageLink p v) ∧
      (UpdateImageLink p v).data.imagetype.sizeInBytes = p.data.imagetype.sizeInBytes ∧
      (UpdateImageLink p v).data.imagetype.imageID = v) ∧
    (∀ v : Int, FrameKept ids p (UpdateInteger p v) ∧
      (UpdateInteger p v).data.inttype.sizeInBytes = p.data.inttype.sizeInBytes ∧
      (UpdateInteger p v).data.inttype.value = v) ∧
    (∀ v : Int, FrameKept ids p (UpdateSize p v) ∧ (UpdateSize p v).data.sizetype.size = v) ∧
    (∀ v : Int, FrameKept ids p (UpdateEnum p v) ∧
      (UpdateEnum p v).data.enumtype.sizeInBytes = p.data.enumtype.sizeInBytes ∧
      (UpdateEnum p v).data.enumtype.enumvalue = v) ∧
    (∀ v : Bool, FrameKept ids p (UpdateBoolean p v) ∧
      (UpdateBoolean p v).data.booltype.sizeInBytes = p.data.booltype.sizeInBytes ∧
      (UpdateBoolean p v).data.booltype.boolvalue = if v then 1 else 0) ∧
    (∀ r g b : Fin 256, FrameKept ids p (UpdateColor p r g b) ∧
      (UpdateColor p r g b).data.colortype.sizeInBytes = p.data.colortype.sizeInBytes ∧
      (UpdateColor p r g b).data.colortype.r = r.val ∧
      (UpdateColor p r g b).data.colortype.g = g.val ∧
      (UpdateColor p r g b).data.colortype.b = b.val) ∧
    (∀ l t r b : Int, FrameKept ids p (UpdateRectangle p l t r b) ∧
      (UpdateRectangle p l t r b).data.recttype = ⟨p.data.recttype.sizeInBytes, l, t, r, b⟩) ∧
    (∀ l t r b : Int, FrameKept ids p (UpdateMargin p l t r b) ∧
      (UpdateMargin p l t r b).data.margintype = ⟨p.data.margintype.sizeInBytes, l, t, r, b⟩) ∧
    (∀ x y : Int, FrameKept ids p (UpdatePosition p x y) ∧
      (UpdatePosition p x y).data.positiontype = ⟨p.data.positiontype.sizeInBytes, x, y⟩) ∧
    (∀ v : Int, FrameKept ids p (UpdateFont p v) ∧
      (UpdateFont p v).data.fonttype.sizeInBytes = p.data.fonttype.sizeInBytes ∧
      (UpdateFont p v).data.fonttype.fontID = v) := by
  refine ⟨?_, ?_, ?_, ?_, ?_, ?_, ?_, ?_, ?_, ?_⟩
  · intro v
    exact ⟨⟨rfl, rfl, rfl, rfl⟩, rfl, rfl⟩
  · intro v
    exact ⟨⟨rfl, rfl, rfl, rfl⟩, rfl, rfl⟩
  · intro v
    exact ⟨⟨rfl, rfl, rfl, rfl⟩, rfl⟩
  · intro v
    exact ⟨⟨rfl, rfl, rfl, rfl⟩, rfl, rfl⟩
  · intro v
    exact ⟨⟨rfl, rfl, rfl, rfl⟩, rfl, rfl⟩
  · intro r g b
    exact ⟨⟨rfl, rfl, rfl, rfl⟩, rfl, rfl, rfl, rfl⟩
  · intro l t r b
    exact ⟨⟨rfl, rfl, rfl, rfl⟩, rfl⟩
  · intro l t r b
    exact ⟨⟨rfl, rfl, rfl, rfl⟩, rfl⟩
  · intro x y
    exact ⟨⟨rfl, rfl, rfl, rfl⟩, rfl⟩
  · intro v
    exact ⟨⟨rfl, rfl, rfl, rfl⟩, rfl, rfl⟩

/-! ### The two sizes -/

/-- C15. The regular size does not depend on bytesAfterHeader, the as-found
size does not depend on header, payload or text, and the two differ on a
property that `IsPropertyValid` accepts: an INT property with
bytesAfterHeader = 0 has regular size 40 and as-found size 16. -/
theorem sizes_independent :
    (∀ (ids : IDENTIFIER) (p : StyleProperty) (bytes : Int),
      GetRegularPropertySize ids { p with bytesAfterHeader := bytes } =
        GetRegularPropertySize ids p) ∧
    (∀ (p : StyleProperty) (header : PropertyHeader) (data : PropertyData) (text : List Nat),
      GetPropertySizeAsFound { p with header := header, data := data, text := text } =
        GetPropertySizeAsFound p) ∧
    (∀ (ids : IDENTIFIER) (p : StyleProperty), ids.SizeLabelsDistinct →
      p.header.typeID = ids.INT → p.bytesAfterHeader = 0 →
      GetRegularPropertySize ids p = 40 ∧ GetPropertySizeAsFound p = 16) ∧
    (IsPropertyValid IDENTIFIER.tmt (headerOnly 5000 202 0 0) = true ∧
      GetRegularPropertySize IDENTIFIER.tmt (headerOnly 5000 202 0 0) = 40 ∧
      GetPropertySizeAsFound (headerOnly 5000 202 0 0) = 16) := by
  refine ⟨fun _ _ _ => rfl, fun _ _ _ _ => rfl, ?_, by decide⟩
  intro ids p hd ht hb
  constructor
  · refine switch_hit _ _ _ _ hd ?_
    rw [ht]
    simp
  · unfold GetPropertySizeAsFound
    rw [hb]
    decide

/-- Witness of C15 at the Windows identifiers. -/
theorem sizes_independent_witness :
    IDENTIFIER.tmt.SizeLabelsDistinct ∧
      GetRegularPropertySize IDENTIFIER.tmt (headerOnly 5000 202 0 0) = 40 ∧
      GetPropertySizeAsFound (headerOnly 5000 202 0 0) = 16 :=
  ⟨by decide, sizes_independent.2.2.1 IDENTIFIER.tmt (headerOnly 5000 202 0 0) (by decide) rfl rfl⟩

/-! ### Order of the identifiers of a valid header -/

/-- C16. With ENUM above 199, a header that `IsPropertyValid` accepts and that
is not whitelisted has partID, stateID < ENUM <= typeID < COLORSCHEMES <= nameID,
so partID and stateID are below typeID and typeID is below nameID. -/
theorem IsPropertyValid_order (ids : IDENTIFIER) (hE : 199 < ids.ENUM) (p : StyleProperty)
    (hv : IsPropertyValid ids p = true) (hn : ¬ IsWhitelisted ids p) :
    (p.header.partID < ids.ENUM ∧ p.header.stateID < ids.ENUM) ∧
    (ids.ENUM ≤ p.header.typeID ∧ p.header.typeID < ids.COLORSCHEMES ∧
      ids.COLORSCHEMES ≤ p.header.nameID) ∧
    (p.header.partID < p.header.typeID ∧ p.header.stateID < p.header.typeID ∧
      p.header.typeID < p.header.nameID) := by
  rw [IsPropertyValid_iff] at hv
  obtain ⟨⟨t1, t2⟩, hw | ⟨⟨n1, n2⟩, ⟨p1, p2⟩, s1, s2⟩⟩ := hv
  · exact absurd hw hn
  · refine ⟨⟨?_, ?_⟩, ⟨t1, t2, n1⟩, ?_, ?_, ?_⟩ <;> omega

/-- Witness of C16 at the Windows identifiers: the header (5000, INT, 0, 199). -/
theorem IsPropertyValid_order_witness :
    199 < IDENTIFIER.tmt.ENUM ∧
      IsPropertyValid IDENTIFIER.tmt (headerOnly 5000 202 0 199) = true ∧
      ¬ IsWhitelisted IDENTIFIER.tmt (headerOnly 5000 202 0 199) ∧
      (headerOnly 5000 202 0 199).header.stateID < (headerOnly 5000 202 0 199).header.typeID :=
  ⟨by decide, by decide, by decide,
    (IsPropertyValid_order IDENTIFIER.tmt (by decide) (headerOnly 5000 202 0 199) (by decide)
      (by decide)).2.2.2.1⟩

/-! ### Length of the formatted text -/

/-- Digits produced for a number below 10^(k+1): at most k + 1 more than given. -/
theorem toDigitsCore_length (k : Nat) : ∀ (fuel n : Nat) (ds : List Char), n < 10 ^ (k + 1) →
    (Nat.toDigitsCore 10 fuel n ds).length ≤ k + 1 + ds.length := by
  induction k with
  | zero =>
    intro fuel n ds hn
    cases fuel with
    | zero => simp [Nat.toDigitsCore]
    | succ fuel =>
      have h0 : n / 10 = 0 := by omega
      simp [Nat.toDigitsCore, h0]
      omega
  | succ k ih =>
    intro fuel n ds hn
    cases fuel with
    | zero => simp [Nat.toDigitsCore]
    | succ fuel =>
      unfold Nat.toDigitsCore
      simp only
      split_ifs with h0
      · simp
        omega
      · have hlt : n / 10 < 10 ^ (k + 1) := by
          rw [Nat.div_lt_iff_lt_mul (by norm_num)]
          rw [pow_succ] at hn
          exact hn
        have := ih fuel (n / 10) (Nat.digitChar (n % 10) :: ds) hlt
        simp at this
        omega

/-- A natural number below 10^(k+1) has at most k + 1 decimal digits. -/
theorem Nat_repr_length (k n : Nat) (hn : n < 10 ^ (k + 1)) : (Nat.repr n).length ≤ k + 1 := by
  have := toDigitsCore_length k (n + 1) n [] hn
  simpa [Nat.repr, Nat.toDigits, List.asString] using this

/-- The decimal text of a 32 bit signed integer has at most 11 characters. -/
theorem to_string_length_le (v : Int) (h : IsInt32 v) : (to_string v).length ≤ 11 := by
  obtain ⟨h1, h2⟩ := h
  unfold to_string
  cases v with
  | ofNat m =>
    have hm : m < 10 ^ (9 + 1) := by
      have : (m : Int) < 2147483648 := h2
      norm_num
      omega
    have := Nat_repr_length 9 m hm
    show (Nat.repr m).length ≤ 11
    omega
  | negSucc m =>
    have hm : m + 1 < 10 ^ (9 + 1) := by
      have hneg : -2147483648 ≤ Int.negSucc m := h1
      rw [Int.negSucc_eq] at hneg
      norm_num
      omega
    have := Nat_repr_length 9 (m + 1) hm
    show ("-" ++ Nat.repr (m + 1)).length ≤ 11
    rw [String.length_append]
    have : "-".length = 1 := rfl
    omega

/-- The decimal text of an integer from 0 to 255 has at most 3 characters. -/
theorem to_string_length_byte (v : Int) (h1 : 0 ≤ v) (h2 : v ≤ 255) :
    (to_string v).length ≤ 3 := by
  unfold to_string
  cases v with
  | ofNat m =>
    have hm : m < 10 ^ (2 + 1) := by
      have : (m : Int) ≤ 255 := h2
      norm_num
      omega
    exact Nat_repr_length 2 m hm
  | negSucc m => exact absurd h1 (by simp [Int.negSucc_lt_zero])

/-- C17, as stated, fails at its example: with count and first three entries all
-2147483648 the count is not >= 3, the text is "Len: -2147483648, Values omitted",
32 characters, and fits the buffer with its terminator. -/
theorem GetValueAsString_intlist_example_counterexample :
    ¬ 3 ≤ (intlistOf (-2147483648)
        [-2147483648, -2147483648, -2147483648]).data.intlist.numInts ∧
      GetValueAsString IDENTIFIER.tmt emptyLookup
          (intlistOf (-2147483648) [-2147483648, -2147483648, -2147483648]) =
        "Len: -2147483648, Values omitted" ∧
      (GetValueAsString IDENTIFIER.tmt emptyLookup
          (intlistOf (-2147483648) [-2147483648, -2147483648, -2147483648])).length = 32 ∧
      ¬ 63 < (GetValueAsString IDENTIFIER.tmt emptyLookup
          (intlistOf (-2147483648) [-2147483648, -2147483648, -2147483648])).length := by
  decide

/-- C17, amended. Some INTLIST payload with count >= 3 formats to more than 63
characters: with count 2147483647 and the first three entries all -2147483648
the text has 67 characters, so with its terminator it exceeds `textbuffer`. -/
theorem GetValueAsString_intlist_long (ids : IDENTIFIER) (hd : ids.ValueLabelsDistinct)
    (lk : Lookup) :
    ∃ p : StyleProperty, p.header.typeID = ids.INTLIST ∧
      p.data.intlist.numInts = 2147483647 ∧ 3 ≤ p.data.intlist.numInts ∧
      p.data.intlist.firstInt 0 = -2147483648 ∧ p.data.intlist.firstInt 1 = -2147483648 ∧
      p.data.intlist.firstInt 2 = -2147483648 ∧
      (GetValueAsString ids lk p).length = 67 ∧
      63 < (GetValueAsString ids lk p).length ∧
      textbufferSize < (GetValueAsString ids lk p).length + 1 := by
  have ht : ({ intlistOf 2147483647 [-2147483648, -2147483648, -2147483648] with
      header := ⟨5000, ids.INTLIST, 0, 0⟩ } : StyleProperty).header.typeID = ids.INTLIST := rfl
  have hlen := congrArg String.length (GetValueAsString_INTLIST ids hd lk _ ht)
  have hval : (if (2147483647 : Int) ≥ 3 then
        sprintf "Len: %d, Values: %d, %d, %d, ..." [2147483647, -2147483648, -2147483648,
          -2147483648]
      else sprintf "Len: %d, Values omitted" [2147483647]).length = 67 := by decide
  refine ⟨_, ht, rfl, (by decide : (3 : Int) ≤ 2147483647), rfl, rfl, rfl, ?_, ?_, ?_⟩
  · exact hlen.trans hval
  · rw [hlen.trans hval]
    decide
  · rw [hlen.trans hval]
    decide

/-- Witness of amended C17 at the Windows identifiers. -/
theorem GetValueAsString_intlist_long_witness :
    IDENTIFIER.tmt.ValueLabelsDistinct ∧
      ∃ p : StyleProperty, p.header.typeID = IDENTIFIER.tmt.INTLIST ∧
        3 ≤ p.data.intlist.numInts ∧
        63 < (GetValueAsString IDENTIFIER.tmt emptyLookup p).length :=
  ⟨by decide,
    (GetValueAsString_intlist_long IDENTIFIER.tmt (by decide) emptyLookup).imp
      (fun _ h => ⟨h.1, h.2.2.1, h.2.2.2.2.2.2.2.1⟩)⟩

/-- Length of two decimal texts joined by ", ". -/
theorem length_pair (a b : Int) :
    (to_string a ++ ", " ++ to_string b).length =
      (to_string a).length + (to_string b).length + 2 := by
  have h2 : ", ".length = 2 := rfl
  simp only [String.length_append, h2]
  omega

/-- Length of three decimal texts joined by ", ". -/
theorem length_triple (a b c : Int) :
    (to_string a ++ ", " ++ to_string b ++ ", " ++ to_string c).length =
      (to_string a).length + (to_string b).length + (to_string c).length + 4 := by
  have h2 : ", ".length = 2 := rfl
  simp only [String.length_append, h2]
  omega

/-- Length of four decimal texts joined by ", ". -/
theorem length_quadruple (a b c d : Int) :
    (to_string a ++ ", " ++ to_string b ++ ", " ++ to_string c ++ ", " ++ to_string d).length =
      (to_string a).length + (to_string b).length + (to_string c).length +
        (to_string d).length + 6 := by
  have h2 : ", ".length = 2 := rfl
  simp only [String.length_append, h2]
  omega

/-- C19. The text of a COLOR property with components from 0 to 255 has at most
13 characters, that of a MARGINS or RECT property with 32 bit components at
most 50, that of a POSITION property at most 24: each has at most 63
characters and fits `textbuffer` with its terminator. -/
theorem GetValueAsString_fits (ids : IDENTIFIER) (hd : ids.ValueLabelsDistinct) (lk : Lookup)
    (p : StyleProperty) :
    (p.header.typeID = ids.COLOR →
      (0 ≤ p.data.colortype.r ∧ p.data.colortype.r ≤ 255) →
      (0 ≤ p.data.colortype.g ∧ p.data.colortype.g ≤ 255) →
      (0 ≤ p.data.colortype.b ∧ p.data.colortype.b ≤ 255) →
      (GetValueAsString ids lk p).length ≤ 13 ∧ (GetValueAsString ids lk p).length ≤ 63 ∧
        (GetValueAsString ids lk p).length + 1 ≤ textbufferSize) ∧
    (p.header.typeID = ids.MARGINS →
      IsInt32 p.data.margintype.left → IsInt32 p.data.margintype.top →
      IsInt32 p.data.margintype.right → IsInt32 p.data.margintype.bottom →
      (GetValueAsString ids lk p).length ≤ 50 ∧ (GetValueAsString ids lk p).length ≤ 63 ∧
        (GetValueAsString ids lk p).length + 1 ≤ textbufferSize) ∧
    (p.header.typeID = ids.RECT →
      IsInt32 p.data.recttype.left → IsInt32 p.data.recttype.top →
      IsInt32 p.data.recttype.right → IsInt32 p.data.recttype.bottom →
      (GetValueAsString ids lk p).length ≤ 50 ∧ (GetValueAsString ids lk p).length ≤ 63 ∧
        (GetValueAsString ids lk p).length + 1 ≤ textbufferSize) ∧
    (p.header.typeID = ids.POSITION →
      IsInt32 p.data.positiontype.x → IsInt32 p.data.positiontype.y →
      (GetValueAsString ids lk p).length ≤ 24 ∧ (GetValueAsString ids lk p).length ≤ 63 ∧
        (GetValueAsString ids lk p).length + 1 ≤ textbufferSize) := by
  unfold textbufferSize
  refine ⟨?_, ?_, ?_, ?_⟩
  · intro h hr hg hb
    rw [GetValueAsString_COLOR ids hd lk p h, sprintf_triple, length_triple]
    have h1 := to_string_length_byte _ hr.1 hr.2
    have h2 := to_string_length_byte _ hg.1 hg.2
    have h3 := to_string_length_byte _ hb.1 hb.2
    omega
  · intro h hl ht hr hb
    rw [GetValueAsString_MARGINS ids hd lk p h, sprintf_quadruple, length_quadruple]
    have h1 := to_string_length_le _ hl
    have h2 := to_string_length_le _ ht
    have h3 := to_string_length_le _ hr
    have h4 := to_string_length_le _ hb
    omega
  · intro h hl ht hr hb
    rw [GetValueAsString_RECT ids hd lk p h, sprintf_quadruple, length_quadruple]
    have h1 := to_string_length_le _ hl
    have h2 := to_string_length_le _ ht
    have h3 := to_string_length_le _ hr
    have h4 := to_string_length_le _ hb
    omega
  · intro h hx hy
    rw [GetValueAsString_POSITION ids hd lk p h, sprintf_pair, length_pair]
    have h1 := to_string_length_le _ hx
    have h2 := to_string_length_le _ hy
    omega

/-- Witness of C19: the color (255, 255, 255) formats to 13 characters. -/
theorem GetValueAsString_fits_witness :
    IDENTIFIER.tmt.ValueLabelsDistinct ∧
      (colorOf 255 255 255).header.typeID = IDENTIFIER.tmt.COLOR ∧
      (GetValueAsString IDENTIFIER.tmt emptyLookup (colorOf 255 255 255)).length ≤ 13 :=
  ⟨by decide, rfl,
    ((GetValueAsString_fits IDENTIFIER.tmt (by decide) emptyLookup (colorOf 255 255 255)).1 rfl
      (by decide) (by decide) (by decide)).1⟩

/-! ### Mutators followed by formatting -/

/-- The INT block of `GetValueAsString`. -/
theorem GetValueAsString_INT (ids : IDENTIFIER) (hd : ids.ValueLabelsDistinct) (lk : Lookup)
    (p : StyleProperty) (h : p.header.typeID = ids.INT) :
    GetValueAsString ids lk p = to_string p.data.inttype.value := by
  refine switch_hit _ _ _ _ hd ?_
  rw [h]
  simp

/-- The SIZE block of `GetValueAsString`. -/
theorem GetValueAsString_SIZE (ids : IDENTIFIER) (hd : ids.ValueLabelsDistinct) (lk : Lookup)
    (p : StyleProperty) (h : p.header.typeID = ids.SIZE) :
    GetValueAsString ids lk p = to_string p.data.sizetype.size := by
  refine switch_hit _ _ _ _ hd ?_
  rw [h]
  simp

/-- The block of `GetValueAsString` shared by FILENAME and DISKSTREAM. -/
theorem GetValueAsString_image (ids : IDENTIFIER) (hd : ids.ValueLabelsDistinct) (lk : Lookup)
    (p : StyleProperty) (h : p.header.typeID = ids.FILENAME ∨ p.header.typeID = ids.DISKSTREAM) :
    GetValueAsString ids lk p = to_string p.data.imagetype.imageID := by
  refine switch_hit _ _ _ _ hd ?_
  rcases h with h | h <;> rw [h] <;> simp

/-- C18. Formatting right after the matching mutator gives the text of the
value written: "r, g, b" after `UpdateColor` on a COLOR property, "true" exactly
for `UpdateBoolean(true)` and "false" for `UpdateBoolean(false)` on a BOOL
property, the decimal text of v after `UpdateInteger` on INT, `UpdateSize` on
SIZE and `UpdateImageLink` on FILENAME or DISKSTREAM, "l, t, r, b" after
`UpdateRectangle` on RECT and `UpdateMargin` on MARGINS, "x, y" after
`UpdatePosition` on POSITION. -/
theorem Update_then_format (ids : IDENTIFIER) (hd : ids.ValueLabelsDistinct) (lk : Lookup)
    (p : StyleProperty) :
    (p.header.typeID = ids.COLOR → ∀ r g b : Fin 256,
      GetValueAsString ids lk (UpdateColor p r g b) =
        to_string r.val ++ ", " ++ to_string g.val ++ ", " ++ to_string b.val) ∧
    (p.header.typeID = ids.BOOL → ∀ v : Bool,
      (GetValueAsString ids lk (UpdateBoolean p v) = "true" ↔ v = true) ∧
        (v = false → GetValueAsString ids lk (UpdateBoolean p v) = "false")) ∧
    (p.header.typeID = ids.INT → ∀ v : Int,
      GetValueAsString ids lk (UpdateInteger p v) = to_string v) ∧
    (p.header.typeID = ids.SIZE → ∀ v : Int,
      GetValueAsString ids lk (UpdateSize p v) = to_string v) ∧
    (p.header.typeID = ids.FILENAME ∨ p.header.typeID = ids.DISKSTREAM → ∀ v : Int,
      GetValueAsString ids lk (UpdateImageLink p v) = to_string v) ∧
    (p.header.typeID = ids.RECT → ∀ l t r b : Int,
      GetValueAsString ids lk (UpdateRectangle p l t r b) =
        to_string l ++ ", " ++ to_string t ++ ", " ++ to_string r ++ ", " ++ to_string b) ∧
    (p.header.typeID = ids.MARGINS → ∀ l t r b : Int,
      GetValueAsString ids lk (UpdateMargin p l t r b) =
        to_string l ++ ", " ++ to_string t ++ ", " ++ to_string r ++ ", " ++ to_string b) ∧
    (p.header.typeID = ids.POSITION → ∀ x y : Int,
      GetValueAsString ids lk (UpdatePosition p x y) = to_string x ++ ", " ++ to_string y) := by
  refine ⟨?_, ?_, ?_, ?_, ?_, ?_, ?_, ?_⟩
  · intro h r g b
    rw [GetValueAsString_COLOR ids hd lk (UpdateColor p r g b) h, ← sprintf_triple]
    rfl
  · intro h v
    rw [GetValueAsString_BOOL ids hd lk (UpdateBoolean p v) h]
    cases v
    · have e : (if (UpdateBoolean p false).data.booltype.boolvalue > 0 then "true"
          else "false") = "false" := rfl
      rw [e]
      exact ⟨by decide, fun _ => rfl⟩
    · have e : (if (UpdateBoolean p true).data.booltype.boolvalue > 0 then "true"
          else "false") = "true" := rfl
      rw [e]
      exact ⟨by decide, fun hv => absurd hv (by decide)⟩
  · intro h v
    exact GetValueAsString_INT ids hd lk (UpdateInteger p v) h
  · intro h v
    exact GetValueAsString_SIZE ids hd lk (UpdateSize p v) h
  · intro h v
    exact GetValueAsString_image ids hd lk (UpdateImageLink p v) h
  · intro h l t r b
    rw [GetValueAsString_RECT ids hd lk (UpdateRectangle p l t r b) h, ← sprintf_quadruple]
    rfl
  · intro h l t r b
    rw [GetValueAsString_MARGINS ids hd lk (UpdateMargin p l t r b) h, ← sprintf_quadruple]
    rfl
  · intro h x y
    rw [GetValueAsString_POSITION ids hd lk (UpdatePosition p x y) h, ← sprintf_pair]
    rfl

/-- Witness of C18: `UpdateColor(10, 20, 30)` on a COLOR property holding
(1, 2, 3) formats as "10, 20, 30". -/
theorem Update_then_format_witness :
    IDENTIFIER.tmt.ValueLabelsDistinct ∧
      (colorOf 1 2 3).header.typeID = IDENTIFIER.tmt.COLOR ∧
      GetValueAsString IDENTIFIER.tmt emptyLookup (UpdateColor (colorOf 1 2 3) 10 20 30) =
        "10, 20, 30" :=
  ⟨by decide, rfl,
    (Update_then_format IDENTIFIER.tmt (by decide) emptyLookup (colorOf 1 2 3)).1 rfl 10 20 30⟩

/-! ### Equality is an equivalence -/

/-- The outcome of a buffered `sprintf` is the formatted text when it fits, and
is never another text. -/
theorem sprintf_textbuffer_spec (fmt : String) (args : List Int) :
    ((sprintf fmt args).length + 1 ≤ textbufferSize →
        sprintf_textbuffer fmt args = some (sprintf fmt args)) ∧
      (¬ (sprintf fmt args).length + 1 ≤ textbufferSize → sprintf_textbuffer fmt args = none) ∧
      (∀ s, sprintf_textbuffer fmt args = some s → s = sprintf fmt args) := by
  unfold sprintf_textbuffer
  refine ⟨fun h => if_pos h, fun h => if_neg h, ?_⟩
  intro s hs
  split_ifs at hs with h
  exact (Option.some.inj hs).symm

/-- What `GetValueAsString_buffered` returns is the text `GetValueAsString`
gives, and it returns it whenever that text fits `textbuffer` with its
terminator. -/
theorem GetValueAsString_buffered_spec (ids : IDENTIFIER) (lk : Lookup) (p : StyleProperty) :
    ((GetValueAsString ids lk p).length + 1 ≤ textbufferSize →
        GetValueAsString_buffered ids lk p = some (GetValueAsString ids lk p)) ∧
      (∀ s, GetValueAsString_buffered ids lk p = some s → s = GetValueAsString ids lk p) := by
  have hsome : ∀ t : String, (t.length + 1 ≤ textbufferSize → some t = some t) ∧
      (∀ s, some t = some s → s = t) :=
    fun t => ⟨fun _ => rfl, fun s hs => (Option.some.inj hs).symm⟩
  have hbuf : ∀ (fmt : String) (args : List Int),
      ((sprintf fmt args).length + 1 ≤ textbufferSize →
          sprintf_textbuffer fmt args = some (sprintf fmt args)) ∧
        (∀ s, sprintf_textbuffer fmt args = some s → s = sprintf fmt args) :=
    fun fmt args => ⟨(sprintf_textbuffer_spec fmt args).1, (sprintf_textbuffer_spec fmt args).2.2⟩
  unfold GetValueAsString_buffered GetValueAsString
  refine switch_rel
    (fun (a : Option String) (b : String) =>
      (b.length + 1 ≤ textbufferSize → a = some b) ∧ (∀ s, a = some s → s = b))
    _ _ _ _ _ ?_ (hsome _)
  refine List.Forall₂.cons ⟨rfl, ?_⟩ (List.Forall₂.cons ⟨rfl, hsome _⟩
    (List.Forall₂.cons ⟨rfl, hsome _⟩ (List.Forall₂.cons ⟨rfl, ?_⟩
    (List.Forall₂.cons ⟨rfl, hbuf _ _⟩ (List.Forall₂.cons ⟨rfl, hbuf _ _⟩
    (List.Forall₂.cons ⟨rfl, hsome _⟩ (List.Forall₂.cons ⟨rfl, hsome _⟩
    (List.Forall₂.cons ⟨rfl, hsome _⟩ (List.Forall₂.cons ⟨rfl, hbuf _ _⟩
    (List.Forall₂.cons ⟨rfl, hbuf _ _⟩ (List.Forall₂.cons ⟨rfl, hsome _⟩
    (List.Forall₂.cons ⟨rfl, ?_⟩ List.Forall₂.nil))))))))))))
  · show (_ → _) ∧ _
    cases lk.GetEnumAsString p.header.nameID p.data.enumtype.enumvalue with
    | none => exact hsome _
    | some enumStr => exact hsome _
  · show (_ → _) ∧ _
    split_ifs
    · exact hsome _
    · exact hsome _
  · show (_ → _) ∧ _
    split_ifs
    · exact hbuf _ _
    · exact hbuf _ _

/-- What an INTLIST call returns, buffer included. With count N >= 3 it returns
"Len: N, Values: v0, v1, v2, ..." whenever that text has at most 63 characters;
with a 32 bit count N < 3 it always returns "Len: N, Values omitted" (at most
32 characters). Count 2 returns "Len: 2, Values omitted"; count 5 with first
entries 1, 2, 3 returns "Len: 5, Values: 1, 2, 3, ...". -/
theorem GetValueAsString_buffered_intlist (ids : IDENTIFIER) (hd : ids.ValueLabelsDistinct)
    (lk : Lookup) (p : StyleProperty) (h : p.header.typeID = ids.INTLIST) :
    (3 ≤ p.data.intlist.numInts →
      ("Len: " ++ to_string p.data.intlist.numInts ++ ", Values: " ++
          to_string (p.data.intlist.firstInt 0) ++ ", " ++
          to_string (p.data.intlist.firstInt 1) ++ ", " ++
          to_string (p.data.intlist.firstInt 2) ++ ", ...").length ≤ 63 →
      GetValueAsString_buffered ids lk p =
        some ("Len: " ++ to_string p.data.intlist.numInts ++ ", Values: " ++
          to_string (p.data.intlist.firstInt 0) ++ ", " ++
          to_string (p.data.intlist.firstInt 1) ++ ", " ++
          to_string (p.data.intlist.firstInt 2) ++ ", ...")) ∧
    (p.data.intlist.numInts < 3 → IsInt32 p.data.intlist.numInts →
      GetValueAsString_buffered ids lk p =
        some ("Len: " ++ to_string p.data.intlist.numInts ++ ", Values omitted")) ∧
    (p.data.intlist.numInts = 2 →
      GetValueAsString_buffered ids lk p = some "Len: 2, Values omitted") ∧
    (p.data.intlist.numInts = 5 → p.data.intlist.firstInt 0 = 1 →
      p.data.intlist.firstInt 1 = 2 → p.data.intlist.firstInt 2 = 3 →
      GetValueAsString_buffered ids lk p = some "Len: 5, Values: 1, 2, 3, ...") := by
  have ht := GetValueAsString_intlist ids hd lk p h
  have hb := (GetValueAsString_buffered_spec ids lk p).1
  unfold textbufferSize at hb
  refine ⟨?_, ?_, ?_, ?_⟩
  · intro hn hlen
    rw [← ht.1 hn] at hlen ⊢
    exact hb (by omega)
  · intro hn hr
    have hlen : ("Len: " ++ to_string p.data.intlist.numInts ++ ", Values omitted").length
        ≤ 32 := by
      have h5 : "Len: ".length = 5 := rfl
      have h16 : ", Values omitted".length = 16 := rfl
      have h11 := to_string_length_le _ hr
      simp only [String.length_append, h5, h16]
      omega
    rw [← ht.2.1 hn] at hlen ⊢
    exact hb (by omega)
  · intro hn
    have e := ht.2.2.2.2.1 hn
    have hlen : (GetValueAsString ids lk p).length + 1 ≤ 64 := by
      rw [e]
      decide
    rw [hb hlen, e]
  · intro hn h0 h1 h2
    have e := ht.2.2.2.2.2 hn h0 h1 h2
    have hlen : (GetValueAsString ids lk p).length + 1 ≤ 64 := by
      rw [e]
      decide
    rw [hb hlen, e]

/-- C8, at the failing input. The INTLIST property with count 2147483647 and
first three entries -2147483648 has count >= 3, and the text the claim names,
"Len: 2147483647, Values: -2147483648, -2147483648, -2147483648, ...", has 67
characters: `sprintf` writes 68 bytes into the 64 bytes of `textbuffer`, and
the call does not return that text. -/
theorem GetValueAsString_buffered_intlist_overflow :
    (intlistOf 2147483647 [-2147483648, -2147483648, -2147483648]).header.typeID =
        IDENTIFIER.tmt.INTLIST ∧
      3 ≤ (intlistOf 2147483647
        [-2147483648, -2147483648, -2147483648]).data.intlist.numInts ∧
      GetValueAsString IDENTIFIER.tmt emptyLookup
          (intlistOf 2147483647 [-2147483648, -2147483648, -2147483648]) =
        "Len: 2147483647, Values: -2147483648, -2147483648, -2147483648, ..." ∧
      ("Len: 2147483647, Values: -2147483648, -2147483648, -2147483648, ...").length = 67 ∧
      textbufferSize < 67 + 1 ∧
      GetValueAsString_buffered IDENTIFIER.tmt emptyLookup
          (intlistOf 2147483647 [-2147483648, -2147483648, -2147483648]) = none ∧
      GetValueAsString_buffered IDENTIFIER.tmt emptyLookup
          (intlistOf 2147483647 [-2147483648, -2147483648, -2147483648]) ≠
        some "Len: 2147483647, Values: -2147483648, -2147483648, -2147483648, ..." := by
  decide

/-- The blocks that do not stage their text in `textbuffer` always return it:
for every typeID other than COLOR, MARGINS, POSITION, RECT and INTLIST the
buffered call returns the text of `GetValueAsString`, whatever its length. -/
theorem GetValueAsString_buffered_unstaged (ids : IDENTIFIER) (lk : Lookup) (p : StyleProperty)
    (h : p.header.typeID ∉ [ids.COLOR, ids.MARGINS, ids.POSITION, ids.RECT, ids.INTLIST]) :
    GetValueAsString_buffered ids lk p = some (GetValueAsString ids lk p) := by
  simp only [List.mem_cons, List.not_mem_nil, or_false, not_or] at h
  obtain ⟨h1, h2, h3, h4, h5⟩ := h
  unfold GetValueAsString_buffered GetValueAsString
  simp only [switch]
  split_ifs
  · cases lk.GetEnumAsString p.header.nameID p.data.enumtype.enumvalue <;> rfl
  all_goals rfl

end libmsstyle
